import Mathlib

/-!
Verification of the impact-calculation pipeline of the `green_means_go`
African LCA backend (production variant) against its specification.

The Rust source is shallowly embedded:
* `f64` arithmetic is modelled by `ℝ` (exact real arithmetic);
* `u8` / `u32` fields are modelled by `ℕ` (with `% 256` where `u8`
  wrap-around could matter);
* `HashMap<String, _>` reference tables are modelled by functions into
  `Option`, and the mutable result maps by association lists;
* fallible code (array indexing that can panic, string parsing) is
  modelled by `Option`;
* the Rust standard library's `f64 → String` formatting and
  `String → f64` parsing, and the repository's ad-hoc
  `extract_fuel_consumption` string scraping, are pure string functions
  whose exact output never matters to any claim; they are abstracted as
  the fields of `StrFns` and universally quantified in every theorem.
-/

namespace GreenLCA

noncomputable section

open scoped Classical

/-! ## String helpers

Rust's `str::contains` is modelled by an explicit substring scan over the
character list of the string. -/

def listHasPrefixChars : List Char → List Char → Bool
  | _, [] => true
  | [], _ :: _ => false
  | c :: cs, p :: ps => c == p && listHasPrefixChars cs ps

def listHasSubstr : List Char → List Char → Bool
  | [], pat => pat.isEmpty
  | c :: cs, pat => listHasPrefixChars (c :: cs) pat || listHasSubstr cs pat

/-- Model of Rust `s.contains(pat)` for string patterns. -/
def strContains (s pat : String) : Bool :=
  listHasSubstr s.data pat.data

/-! ## Core enums (from `production/models.rs`) -/

inductive Country where
  | Ghana
  | Nigeria
  | Global
deriving DecidableEq

/-- The string produced by Rust's `{:?}` debug formatting of `Country`. -/
def Country.debugStr : Country → String
  | .Ghana => "Ghana"
  | .Nigeria => "Nigeria"
  | .Global => "Global"

inductive FoodCategory where
  | Cereals
  | Legumes
  | Vegetables
  | Fruits
  | Meat
  | Poultry
  | Fish
  | Dairy
  | Eggs
  | Oils
  | Nuts
  | Roots
  | Other
deriving DecidableEq

/-- The string produced by Rust's `{:?}` debug formatting of `FoodCategory`. -/
def FoodCategory.debugStr : FoodCategory → String
  | .Cereals => "Cereals"
  | .Legumes => "Legumes"
  | .Vegetables => "Vegetables"
  | .Fruits => "Fruits"
  | .Meat => "Meat"
  | .Poultry => "Poultry"
  | .Fish => "Fish"
  | .Dairy => "Dairy"
  | .Eggs => "Eggs"
  | .Oils => "Oils"
  | .Nuts => "Nuts"
  | .Roots => "Roots"
  | .Other => "Other"

inductive ProductionSystem where
  | Intensive
  | Extensive
  | Smallholder
  | Agroforestry
  | Irrigated
  | Rainfed
  | Organic
  | Conventional
deriving DecidableEq

inductive SeasonalFactor where
  | WetSeason
  | DrySeason
  | YearRound
deriving DecidableEq

inductive CroppingPattern where
  | Monoculture
  | Intercropping
  | RelayCropping
  | Agroforestry
  | CropRotation
deriving DecidableEq

inductive ConfidenceLevel where
  | High
  | Medium
  | Low
  | VeryLow
deriving DecidableEq

inductive WeightingMethod where
  | AfricanPriorities
  | EqualWeights
  | ExpertJudgment
  | SocialPreferences
  | NoneW
deriving DecidableEq

inductive NormalizationMethod where
  | AfricanContext
  | GlobalContext
  | EuropeanContext
  | NoneN
deriving DecidableEq

/-- Debug string of `NormalizationMethod` (`None` in Rust is `NoneN` here). -/
def NormalizationMethod.debugStr : NormalizationMethod → String
  | .AfricanContext => "AfricanContext"
  | .GlobalContext => "GlobalContext"
  | .EuropeanContext => "EuropeanContext"
  | .NoneN => "None"

def WeightingMethod.debugStr : WeightingMethod → String
  | .AfricanPriorities => "AfricanPriorities"
  | .EqualWeights => "EqualWeights"
  | .ExpertJudgment => "ExpertJudgment"
  | .SocialPreferences => "SocialPreferences"
  | .NoneW => "None"

inductive DataSource where
  | CountrySpecific (c : Country)
  | Regional (r : String)
  | Global
  | Hybrid
  | Estimated
deriving DecidableEq

/-! ## Pedigree scores (from `production/models.rs`) -/

/-- Five ordinal data-quality axes, each a Rust `u8`. -/
structure PedigreeScore where
  reliability : ℕ
  completeness : ℕ
  temporal_correlation : ℕ
  geographical_correlation : ℕ
  technological_correlation : ℕ
deriving DecidableEq

/-- The `u8` sum of the five axes (wrap-around modelled by `% 256`). -/
def PedigreeScore.sumAxes (p : PedigreeScore) : ℕ :=
  (p.reliability + p.completeness + p.temporal_correlation +
   p.geographical_correlation + p.technological_correlation) % 256

/-- `PedigreeScore::calculate_overall_quality_score`: `1 − (sum − 5)/20`. -/
def PedigreeScore.calculate_overall_quality_score (p : PedigreeScore) : ℝ :=
  1 - ((p.sumAxes : ℝ) - 5) / 20

/-- The 5×5 table of `uncertainty_factors` in
`PedigreeScore::calculate_uncertainty_factor`, row-indexed by axis and
column-indexed by `indicator − 1`. -/
def uncertainty_factors_table : List (List ℚ) :=
  [[1.00, 1.05, 1.10, 1.20, 1.50],
   [1.00, 1.02, 1.05, 1.10, 1.20],
   [1.00, 1.03, 1.10, 1.20, 1.50],
   [1.00, 1.01, 1.02, 1.10, 1.50],
   [1.00, 1.05, 1.20, 1.50, 2.00]]

/-- Table lookup `uncertainty_factors[row][(indicator - 1) as usize]`.
The Rust `u8` subtraction `indicator - 1` panics (debug) or wraps to 255
(release, then indexes out of bounds and panics) when `indicator = 0`;
both panic outcomes, and out-of-bounds indicators `≥ 6`, are `none`. -/
def indicatorFactor (row indicator : ℕ) : Option ℚ :=
  if indicator = 0 then none
  else (uncertainty_factors_table.get? row).bind fun r => r.get? (indicator - 1)

/-- The five table factors of a pedigree score, or `none` if any lookup
panics. -/
def PedigreeScore.factors (p : PedigreeScore) : Option (List ℚ) :=
  (indicatorFactor 0 p.reliability).bind fun f0 =>
  (indicatorFactor 1 p.completeness).bind fun f1 =>
  (indicatorFactor 2 p.temporal_correlation).bind fun f2 =>
  (indicatorFactor 3 p.geographical_correlation).bind fun f3 =>
  (indicatorFactor 4 p.technological_correlation).bind fun f4 =>
  some [f0, f1, f2, f3, f4]

/-- `PedigreeScore::calculate_uncertainty_factor`:
`exp(sqrt(Σ ln(fᵢ)²))` over the five table factors, `none` on panic. -/
def PedigreeScore.calculate_uncertainty_factor (p : PedigreeScore) : Option ℝ :=
  p.factors.map fun fs =>
    Real.exp (Real.sqrt ((fs.map fun f => (Real.log (f : ℝ)) ^ 2).sum))

/-- All five axes lie in the documented range `1 ..= 5`. -/
def PedigreeScore.inRange (p : PedigreeScore) : Prop :=
  1 ≤ p.reliability ∧ p.reliability ≤ 5 ∧
  1 ≤ p.completeness ∧ p.completeness ≤ 5 ∧
  1 ≤ p.temporal_correlation ∧ p.temporal_correlation ≤ 5 ∧
  1 ≤ p.geographical_correlation ∧ p.geographical_correlation ≤ 5 ∧
  1 ≤ p.technological_correlation ∧ p.technological_correlation ≤ 5

instance (p : PedigreeScore) : Decidable p.inRange := by
  unfold PedigreeScore.inRange; infer_instance

/-- Exactly one axis strictly increases, all others stay fixed. -/
def singleAxisIncrease (p q : PedigreeScore) : Prop :=
  (p.reliability < q.reliability ∧ p.completeness = q.completeness ∧
   p.temporal_correlation = q.temporal_correlation ∧
   p.geographical_correlation = q.geographical_correlation ∧
   p.technological_correlation = q.technological_correlation) ∨
  (p.reliability = q.reliability ∧ p.completeness < q.completeness ∧
   p.temporal_correlation = q.temporal_correlation ∧
   p.geographical_correlation = q.geographical_correlation ∧
   p.technological_correlation = q.technological_correlation) ∨
  (p.reliability = q.reliability ∧ p.completeness = q.completeness ∧
   p.temporal_correlation < q.temporal_correlation ∧
   p.geographical_correlation = q.geographical_correlation ∧
   p.technological_correlation = q.technological_correlation) ∨
  (p.reliability = q.reliability ∧ p.completeness = q.completeness ∧
   p.temporal_correlation = q.temporal_correlation ∧
   p.geographical_correlation < q.geographical_correlation ∧
   p.technological_correlation = q.technological_correlation) ∨
  (p.reliability = q.reliability ∧ p.completeness = q.completeness ∧
   p.temporal_correlation = q.temporal_correlation ∧
   p.geographical_correlation = q.geographical_correlation ∧
   p.technological_correlation < q.technological_correlation)

instance (p q : PedigreeScore) : Decidable (singleAxisIncrease p q) := by
  unfold singleAxisIncrease; infer_instance

/-- Model of Rust's `str::parse::<u8>` restricted to plain digit strings
(no sign): succeeds on a non-empty all-digit string whose value fits in a
`u8`, which is all `data.rs` feeds it from pedigree CSV columns. -/
def parseU8 (s : String) : Option ℕ :=
  if s.data ≠ [] ∧ s.data.all Char.isDigit ∧
      (s.data.foldl (fun acc c => acc * 10 + (c.toNat - 48)) 0) < 256 then
    some (s.data.foldl (fun acc c => acc * 10 + (c.toNat - 48)) 0)
  else none

/-! ## Lemmas about the pedigree uncertainty table -/

lemma indicatorFactor_zero (row : ℕ) : indicatorFactor row 0 = none := by
  simp [indicatorFactor]

lemma uncertainty_factors_table_row_len {row : ℕ} {r : List ℚ}
    (hr : uncertainty_factors_table.get? row = some r) : r.length = 5 := by
  have hmem := List.get?_mem hr
  fin_cases hmem <;> rfl

lemma indicatorFactor_gt5 {row ind : ℕ} (h : 5 < ind) :
    indicatorFactor row ind = none := by
  have h0 : ind ≠ 0 := by omega
  rw [indicatorFactor, if_neg h0]
  cases hr : uncertainty_factors_table.get? row with
  | none => rfl
  | some r =>
    have hlen : r.length = 5 := uncertainty_factors_table_row_len hr
    rw [Option.some_bind, List.get?_eq_none.2 (by omega)]

lemma indicatorFactor_isSome (row ind : ℕ) (hrow : row < 5)
    (h1 : 1 ≤ ind) (h5 : ind ≤ 5) : (indicatorFactor row ind).isSome = true := by
  interval_cases row <;> interval_cases ind <;> decide

lemma factors_eq_none_of_component (q : PedigreeScore)
    (h : indicatorFactor 0 q.reliability = none ∨
         indicatorFactor 1 q.completeness = none ∨
         indicatorFactor 2 q.temporal_correlation = none ∨
         indicatorFactor 3 q.geographical_correlation = none ∨
         indicatorFactor 4 q.technological_correlation = none) :
    q.factors = none := by
  unfold PedigreeScore.factors
  cases h0 : indicatorFactor 0 q.reliability <;>
    cases h1 : indicatorFactor 1 q.completeness <;>
      cases h2 : indicatorFactor 2 q.temporal_correlation <;>
        cases h3 : indicatorFactor 3 q.geographical_correlation <;>
          cases h4 : indicatorFactor 4 q.technological_correlation <;>
            simp_all

/-- C10: `calculate_uncertainty_factor` is a total, finite computation
exactly when all five pedigree axes lie in `1 ..= 5` (and then its value is
`≥ 1`); an axis of `0` underflows the `indicator − 1` index and an axis
`> 5` indexes past the lookup table, so the call panics (modelled as
`none`); and the condition is reachable because the CSV loader parses
pedigree axes with `unwrap_or(5)` and the literal string `"0"` parses
successfully to `0` rather than falling back to `5`. -/
theorem calculate_uncertainty_factor_safety (p : PedigreeScore) (hp : p.inRange) :
    p.calculate_uncertainty_factor.isSome = true ∧
    (∀ r : ℝ, p.calculate_uncertainty_factor = some r → 1 ≤ r) ∧
    (∀ q : PedigreeScore,
        (q.reliability = 0 ∨ 5 < q.reliability ∨
         q.completeness = 0 ∨ 5 < q.completeness ∨
         q.temporal_correlation = 0 ∨ 5 < q.temporal_correlation ∨
         q.geographical_correlation = 0 ∨ 5 < q.geographical_correlation ∨
         q.technological_correlation = 0 ∨ 5 < q.technological_correlation) →
        q.calculate_uncertainty_factor = none) ∧
    (parseU8 "0").getD 5 = 0 := by
  obtain ⟨h1, h2, h3, h4, h5, h6, h7, h8, h9, h10⟩ := hp
  obtain ⟨f0, hf0⟩ := Option.isSome_iff_exists.mp
    (indicatorFactor_isSome 0 p.reliability (by omega) h1 h2)
  obtain ⟨f1, hf1⟩ := Option.isSome_iff_exists.mp
    (indicatorFactor_isSome 1 p.completeness (by omega) h3 h4)
  obtain ⟨f2, hf2⟩ := Option.isSome_iff_exists.mp
    (indicatorFactor_isSome 2 p.temporal_correlation (by omega) h5 h6)
  obtain ⟨f3, hf3⟩ := Option.isSome_iff_exists.mp
    (indicatorFactor_isSome 3 p.geographical_correlation (by omega) h7 h8)
  obtain ⟨f4, hf4⟩ := Option.isSome_iff_exists.mp
    (indicatorFactor_isSome 4 p.technological_correlation (by omega) h9 h10)
  have hfs : p.factors = some [f0, f1, f2, f3, f4] := by
    simp [PedigreeScore.factors, hf0, hf1, hf2, hf3, hf4]
  refine ⟨?_, ?_, ?_, by decide⟩
  · simp [PedigreeScore.calculate_uncertainty_factor, hfs]
  · intro r hr
    rw [PedigreeScore.calculate_uncertainty_factor, hfs] at hr
    simp only [Option.map_some', Option.some.injEq] at hr
    calc (1 : ℝ) = Real.exp 0 := Real.exp_zero.symm
      _ ≤ _ := by rw [← hr]; exact Real.exp_le_exp.mpr (Real.sqrt_nonneg _)
  · intro q hq
    have : q.factors = none := by
      apply factors_eq_none_of_component
      rcases hq with h | h | h | h | h | h | h | h | h | h
      · exact Or.inl (h ▸ indicatorFactor_zero 0)
      · exact Or.inl (indicatorFactor_gt5 h)
      · exact Or.inr (Or.inl (h ▸ indicatorFactor_zero 1))
      · exact Or.inr (Or.inl (indicatorFactor_gt5 h))
      · exact Or.inr (Or.inr (Or.inl (h ▸ indicatorFactor_zero 2)))
      · exact Or.inr (Or.inr (Or.inl (indicatorFactor_gt5 h)))
      · exact Or.inr (Or.inr (Or.inr (Or.inl (h ▸ indicatorFactor_zero 3))))
      · exact Or.inr (Or.inr (Or.inr (Or.inl (indicatorFactor_gt5 h))))
      · exact Or.inr (Or.inr (Or.inr (Or.inr (h ▸ indicatorFactor_zero 4))))
      · exact Or.inr (Or.inr (Or.inr (Or.inr (indicatorFactor_gt5 h))))
    simp [PedigreeScore.calculate_uncertainty_factor, this]

/-- Witness for C10 at the all-ones pedigree score. -/
theorem calculate_uncertainty_factor_safety_witness :
    (PedigreeScore.mk 1 1 1 1 1).inRange ∧
    (PedigreeScore.mk 1 1 1 1 1).calculate_uncertainty_factor.isSome = true :=
  ⟨by decide, (calculate_uncertainty_factor_safety ⟨1, 1, 1, 1, 1⟩ (by decide)).1⟩

/-- C7: for axes in `1 ..= 5`, `calculate_overall_quality_score` equals
`1 − (sum − 5)/20`, is exactly `1` at the all-ones score and exactly `0`
at the all-fives score, and strictly decreases whenever one single axis
increases with the others held fixed. -/
theorem calculate_overall_quality_score_spec (p q : PedigreeScore)
    (hp : p.inRange) (hq : q.inRange) (hpq : singleAxisIncrease p q) :
    p.calculate_overall_quality_score =
      1 - (((p.reliability + p.completeness + p.temporal_correlation +
             p.geographical_correlation + p.technological_correlation : ℕ) : ℝ) - 5) / 20 ∧
    (PedigreeScore.mk 1 1 1 1 1).calculate_overall_quality_score = 1 ∧
    (PedigreeScore.mk 5 5 5 5 5).calculate_overall_quality_score = 0 ∧
    q.calculate_overall_quality_score < p.calculate_overall_quality_score := by
  obtain ⟨p1, p2, p3, p4, p5, p6, p7, p8, p9, p10⟩ := hp
  obtain ⟨q1, q2, q3, q4, q5, q6, q7, q8, q9, q10⟩ := hq
  have hpsum : p.sumAxes = p.reliability + p.completeness + p.temporal_correlation +
      p.geographical_correlation + p.technological_correlation :=
    Nat.mod_eq_of_lt (by omega)
  have hqsum : q.sumAxes = q.reliability + q.completeness + q.temporal_correlation +
      q.geographical_correlation + q.technological_correlation :=
    Nat.mod_eq_of_lt (by omega)
  have hlt : p.sumAxes < q.sumAxes := by
    rw [hpsum, hqsum]
    rcases hpq with ⟨h, e1, e2, e3, e4⟩ | ⟨e1, h, e2, e3, e4⟩ | ⟨e1, e2, h, e3, e4⟩ |
      ⟨e1, e2, e3, h, e4⟩ | ⟨e1, e2, e3, e4, h⟩ <;> omega
  refine ⟨by rw [PedigreeScore.calculate_overall_quality_score, hpsum], ?_, ?_, ?_⟩
  · norm_num [PedigreeScore.calculate_overall_quality_score, PedigreeScore.sumAxes]
  · norm_num [PedigreeScore.calculate_overall_quality_score, PedigreeScore.sumAxes]
  · have : (p.sumAxes : ℝ) < (q.sumAxes : ℝ) := Nat.cast_lt.2 hlt
    unfold PedigreeScore.calculate_overall_quality_score
    linarith

/-- Witness for C7: all-ones score versus a score with one axis raised. -/
theorem calculate_overall_quality_score_spec_witness :
    (PedigreeScore.mk 1 1 1 1 1).inRange ∧
    singleAxisIncrease ⟨1, 1, 1, 1, 1⟩ ⟨1, 1, 2, 1, 1⟩ ∧
    (PedigreeScore.mk 1 1 2 1 1).calculate_overall_quality_score <
      (PedigreeScore.mk 1 1 1 1 1).calculate_overall_quality_score :=
  ⟨by decide, by decide,
    (calculate_overall_quality_score_spec ⟨1, 1, 1, 1, 1⟩ ⟨1, 1, 2, 1, 1⟩
      (by decide) (by decide) (by decide)).2.2.2⟩

/-! ## Food items and impact factors (from `production/models.rs`) -/

structure FoodItem where
  id : String
  name : String
  quantity_kg : ℝ
  category : FoodCategory
  crop_type : Option String
  origin_country : Option String
  production_system : Option ProductionSystem
  seasonal_factor : Option SeasonalFactor
  variety : Option String
  area_allocated : Option ℝ
  cropping_pattern : Option CroppingPattern
  intercropping_partners : Option (List String)
  post_harvest_losses : Option ℝ

structure ImpactFactor where
  food_category : FoodCategory
  country : Country
  crop_type : Option String
  impact_category : String
  value_per_kg : ℝ
  unit : String
  confidence : ConfidenceLevel
  source : String
  year : ℤ
  uncertainty_range : ℝ × ℝ
  pedigree_score : PedigreeScore

/-- The engine's `impact_factors: HashMap<String, ImpactFactor>`, modelled
extensionally as its lookup function. -/
abbrev FactorMap : Type := String → Option ImpactFactor

/-! ## Factor resolution (from `production/lca.rs`) -/

/-- `AfricanLCAEngine::build_lookup_hierarchy`: the four base keys tried in
order, from most to least specific.  Keys are built exactly as the Rust
`format!` strings: `"{:?}_{:?}_{}"` etc. -/
def build_lookup_hierarchy (food : FoodItem) (country : Country) : List String :=
  (match food.crop_type with
   | some crop_type => [food.category.debugStr ++ "_" ++ country.debugStr ++ "_" ++ crop_type]
   | none => []) ++
  [food.category.debugStr ++ "_" ++ country.debugStr] ++
  (match food.crop_type with
   | some crop_type => [food.category.debugStr ++ "_Global_" ++ crop_type]
   | none => []) ++
  [food.category.debugStr ++ "_Global"]

/-- `AfricanLCAEngine::get_default_impact_factor`: the built-in default
table keyed by broad food category and impact-type string.  The catch-all
arm of the Rust `match` reuses the cereal averages. -/
def defaultFallbackByImpact (impact : String) : ℝ :=
  if impact = "Global warming" then 1.4
  else if impact = "Water consumption" then 1.6
  else if impact = "Land use" then 2.8
  else if impact = "Terrestrial acidification" then 0.012
  else if impact = "Freshwater eutrophication" then 0.003
  else if impact = "Marine eutrophication" then 0.008
  else if impact = "Biodiversity loss" then 0.6
  else if impact = "Soil degradation" then 0.15
  else if impact = "Particulate matter formation" then 0.008
  else if impact = "Photochemical oxidation" then 0.004
  else if impact = "Fossil depletion" then 0.02
  else if impact = "Mineral depletion" then 0.001
  else 0.1

def get_default_impact_factor (category : FoodCategory) (impact : String) : ℝ :=
  match category with
  | .Cereals =>
    if impact = "Global warming" then 1.4
    else if impact = "Water consumption" then 1.6
    else if impact = "Land use" then 2.8
    else if impact = "Terrestrial acidification" then 0.012
    else if impact = "Freshwater eutrophication" then 0.003
    else if impact = "Marine eutrophication" then 0.008
    else if impact = "Biodiversity loss" then 0.6
    else if impact = "Soil degradation" then 0.15
    else if impact = "Particulate matter formation" then 0.008
    else if impact = "Photochemical oxidation" then 0.004
    else if impact = "Fossil depletion" then 0.02
    else if impact = "Mineral depletion" then 0.001
    else defaultFallbackByImpact impact
  | .Legumes =>
    if impact = "Global warming" then 1.0
    else if impact = "Water consumption" then 4.0
    else if impact = "Land use" then 2.5
    else if impact = "Terrestrial acidification" then 0.008
    else if impact = "Freshwater eutrophication" then 0.002
    else if impact = "Marine eutrophication" then 0.005
    else if impact = "Biodiversity loss" then 0.4
    else if impact = "Soil degradation" then 0.08
    else if impact = "Particulate matter formation" then 0.006
    else if impact = "Photochemical oxidation" then 0.003
    else if impact = "Fossil depletion" then 0.015
    else if impact = "Mineral depletion" then 0.0008
    else defaultFallbackByImpact impact
  | .Vegetables =>
    if impact = "Global warming" then 0.5
    else if impact = "Water consumption" then 0.4
    else if impact = "Land use" then 0.3
    else if impact = "Terrestrial acidification" then 0.004
    else if impact = "Freshwater eutrophication" then 0.001
    else if impact = "Marine eutrophication" then 0.003
    else if impact = "Biodiversity loss" then 0.2
    else if impact = "Soil degradation" then 0.05
    else if impact = "Particulate matter formation" then 0.003
    else if impact = "Photochemical oxidation" then 0.002
    else if impact = "Fossil depletion" then 0.008
    else if impact = "Mineral depletion" then 0.0004
    else defaultFallbackByImpact impact
  | .Fruits =>
    if impact = "Global warming" then 0.6
    else if impact = "Water consumption" then 0.8
    else if impact = "Land use" then 0.4
    else if impact = "Terrestrial acidification" then 0.005
    else if impact = "Freshwater eutrophication" then 0.001
    else if impact = "Marine eutrophication" then 0.004
    else if impact = "Biodiversity loss" then 0.3
    else if impact = "Soil degradation" then 0.06
    else if impact = "Particulate matter formation" then 0.004
    else if impact = "Photochemical oxidation" then 0.002
    else if impact = "Fossil depletion" then 0.01
    else if impact = "Mineral depletion" then 0.0005
    else defaultFallbackByImpact impact
  | .Meat =>
    if impact = "Global warming" then 25.0
    else if impact = "Water consumption" then 15.0
    else if impact = "Land use" then 20.0
    else if impact = "Terrestrial acidification" then 0.2
    else if impact = "Freshwater eutrophication" then 0.05
    else if impact = "Marine eutrophication" then 0.15
    else if impact = "Biodiversity loss" then 8.0
    else if impact = "Soil degradation" then 2.5
    else if impact = "Particulate matter formation" then 0.15
    else if impact = "Photochemical oxidation" then 0.08
    else if impact = "Fossil depletion" then 0.4
    else if impact = "Mineral depletion" then 0.02
    else defaultFallbackByImpact impact
  | .Poultry =>
    if impact = "Global warming" then 6.0
    else if impact = "Water consumption" then 4.0
    else if impact = "Land use" then 7.0
    else if impact = "Terrestrial acidification" then 0.08
    else if impact = "Freshwater eutrophication" then 0.02
    else if impact = "Marine eutrophication" then 0.06
    else if impact = "Biodiversity loss" then 2.5
    else if impact = "Soil degradation" then 0.8
    else if impact = "Particulate matter formation" then 0.05
    else if impact = "Photochemical oxidation" then 0.03
    else if impact = "Fossil depletion" then 0.15
    else if impact = "Mineral depletion" then 0.008
    else defaultFallbackByImpact impact
  | .Fish =>
    if impact = "Global warming" then 4.0
    else if impact = "Water consumption" then 0.005
    else if impact = "Land use" then 3.0
    else if impact = "Terrestrial acidification" then 0.03
    else if impact = "Freshwater eutrophication" then 0.008
    else if impact = "Marine eutrophication" then 0.15
    else if impact = "Biodiversity loss" then 1.5
    else if impact = "Soil degradation" then 0.2
    else if impact = "Particulate matter formation" then 0.025
    else if impact = "Photochemical oxidation" then 0.015
    else if impact = "Fossil depletion" then 0.08
    else if impact = "Mineral depletion" then 0.003
    else defaultFallbackByImpact impact
  | .Dairy =>
    if impact = "Global warming" then 3.2
    else if impact = "Water consumption" then 5.0
    else if impact = "Land use" then 4.0
    else if impact = "Terrestrial acidification" then 0.04
    else if impact = "Freshwater eutrophication" then 0.01
    else if impact = "Marine eutrophication" then 0.03
    else if impact = "Biodiversity loss" then 1.8
    else if impact = "Soil degradation" then 0.6
    else if impact = "Particulate matter formation" then 0.03
    else if impact = "Photochemical oxidation" then 0.02
    else if impact = "Fossil depletion" then 0.08
    else if impact = "Mineral depletion" then 0.004
    else defaultFallbackByImpact impact
  | .Roots =>
    if impact = "Global warming" then 0.3
    else if impact = "Water consumption" then 0.6
    else if impact = "Land use" then 1.0
    else if impact = "Terrestrial acidification" then 0.002
    else if impact = "Freshwater eutrophication" then 0.0005
    else if impact = "Marine eutrophication" then 0.002
    else if impact = "Biodiversity loss" then 0.15
    else if impact = "Soil degradation" then 0.03
    else if impact = "Particulate matter formation" then 0.002
    else if impact = "Photochemical oxidation" then 0.001
    else if impact = "Fossil depletion" then 0.005
    else if impact = "Mineral depletion" then 0.0002
    else defaultFallbackByImpact impact
  | _ => defaultFallbackByImpact impact

/-- The result quadruple of `find_best_factor`:
`(value, source, uncertainty range, pedigree score)`. -/
def factorTuple (f : ImpactFactor) : ℝ × String × (ℝ × ℝ) × PedigreeScore :=
  (f.value_per_kg, f.source, f.uncertainty_range, f.pedigree_score)

/-- The high-uncertainty default quadruple returned when every hierarchy
level misses. -/
def defaultFactorTuple (food : FoodItem) (category : String) :
    ℝ × String × (ℝ × ℝ) × PedigreeScore :=
  (get_default_impact_factor food.category category,
   "Default estimate - high uncertainty",
   (get_default_impact_factor food.category category * 0.5,
    get_default_impact_factor food.category category * 2.0),
   ⟨5, 5, 5, 5, 5⟩)

/-- `AfricanLCAEngine::find_best_factor`: walk the hierarchy keys in order,
appending `"_" ++ category` to each, and return the first loaded factor;
fall back to the built-in default table (the Rust function is infallible:
it always returns `Ok`). -/
def find_best_factor (m : FactorMap) (food : FoodItem) (category : String) :
    List String → ℝ × String × (ℝ × ℝ) × PedigreeScore
  | [] => defaultFactorTuple food category
  | base_key :: rest =>
    match m (base_key ++ "_" ++ category) with
    | some factor => factorTuple factor
    | none => find_best_factor m food category rest

lemma find_best_factor_first_match (m : FactorMap) (food : FoodItem)
    (category : String) (ks : List String) (i : ℕ) (hi : i < ks.length)
    (f : ImpactFactor)
    (hfound : m (ks.get ⟨i, hi⟩ ++ "_" ++ category) = some f)
    (hmiss : ∀ j (hj : j < ks.length), j < i → m (ks.get ⟨j, hj⟩ ++ "_" ++ category) = none) :
    find_best_factor m food category ks = factorTuple f := by
  induction ks generalizing i with
  | nil => exact absurd hi (by simp)
  | cons k rest ih =>
    cases i with
    | zero =>
      simp only [List.get] at hfound
      simp [find_best_factor, hfound]
    | succ n =>
      have hmiss0 := hmiss 0 (by simp) (Nat.succ_pos n)
      simp only [List.get] at hmiss0
      rw [find_best_factor, hmiss0]
      exact ih n (by simpa using hi) hfound
        (fun j hj hlt => hmiss (j + 1) (by simpa using hj) (by omega))

/-- C1: factor resolution tries exactly the four hierarchy levels
(country+crop, country, Global+crop, Global — each suffixed with the
impact category) in that order and returns the first loaded match. -/
theorem find_best_factor_hierarchy_spec (m : FactorMap) (food : FoodItem)
    (country : Country) (category : String) (crop : String)
    (hcrop : food.crop_type = some crop) (i : ℕ)
    (hi : i < (build_lookup_hierarchy food country).length) (f : ImpactFactor)
    (hfound : m ((build_lookup_hierarchy food country).get ⟨i, hi⟩ ++ "_" ++ category) = some f)
    (hmiss : ∀ j (hj : j < (build_lookup_hierarchy food country).length), j < i →
      m ((build_lookup_hierarchy food country).get ⟨j, hj⟩ ++ "_" ++ category) = none) :
    build_lookup_hierarchy food country =
      [food.category.debugStr ++ "_" ++ country.debugStr ++ "_" ++ crop,
       food.category.debugStr ++ "_" ++ country.debugStr,
       food.category.debugStr ++ "_Global_" ++ crop,
       food.category.debugStr ++ "_Global"] ∧
    find_best_factor m food category (build_lookup_hierarchy food country) =
      factorTuple f := by
  constructor
  · simp [build_lookup_hierarchy, hcrop]
  · exact find_best_factor_first_match m food category _ i hi f hfound hmiss

/-! ### Concrete hierarchical-lookup scenario for C1:
Ghana + Rice + Global warming beats Ghana + Global warming. -/

def ghanaRicePedigree : PedigreeScore := ⟨2, 2, 2, 2, 2⟩

def ghanaRiceFactor : ImpactFactor :=
  { food_category := .Cereals, country := .Ghana, crop_type := some "Rice",
    impact_category := "Global warming", value_per_kg := 2.7,
    unit := "kg CO2-eq/kg", confidence := .High,
    source := "Ghana rice field study", year := 2021,
    uncertainty_range := (2.0, 3.4), pedigree_score := ghanaRicePedigree }

def ghanaCerealFactor : ImpactFactor :=
  { food_category := .Cereals, country := .Ghana, crop_type := none,
    impact_category := "Global warming", value_per_kg := 1.8,
    unit := "kg CO2-eq/kg", confidence := .Medium,
    source := "Ghana cereal average", year := 2020,
    uncertainty_range := (1.2, 2.6), pedigree_score := ⟨3, 3, 3, 3, 3⟩ }

/-- A factor repository holding both a Ghana+Rice+GlobalWarming factor and
a Ghana+GlobalWarming factor. -/
def ghanaRiceRepo : FactorMap := fun k =>
  if k = "Cereals_Ghana_Rice_Global warming" then some ghanaRiceFactor
  else if k = "Cereals_Ghana_Global warming" then some ghanaCerealFactor
  else none

def riceFoodItem : FoodItem :=
  { id := "1", name := "Rice", quantity_kg := 100, category := .Cereals,
    crop_type := some "Rice", origin_country := some "Ghana",
    production_system := some .Smallholder, seasonal_factor := some .WetSeason,
    variety := none, area_allocated := some 2.0, cropping_pattern := none,
    intercropping_partners := none, post_harvest_losses := none }

/-- Witness for C1: with both factors loaded, resolution for the Ghana rice
item returns the more specific Ghana+Rice factor's value. -/
theorem find_best_factor_hierarchy_spec_witness :
    find_best_factor ghanaRiceRepo riceFoodItem "Global warming"
      (build_lookup_hierarchy riceFoodItem .Ghana) = factorTuple ghanaRiceFactor :=
  (find_best_factor_hierarchy_spec ghanaRiceRepo riceFoodItem .Ghana
    "Global warming" "Rice" rfl 0 (by simp [build_lookup_hierarchy])
    ghanaRiceFactor (by simp [build_lookup_hierarchy]; rfl)
    (fun j hj hlt => absurd hlt (by omega))).2

/-- C2: when no loaded factor matches at any of the four hierarchy levels,
`find_best_factor` still succeeds and returns the built-in default value
for the food category and impact type, with a source string containing
`"Default estimate"`, an all-fives pedigree score, and uncertainty range
`(0.5 × default, 2.0 × default)`. -/
theorem find_best_factor_default_spec (m : FactorMap) (food : FoodItem)
    (country : Country) (category : String)
    (hmiss : ∀ k ∈ build_lookup_hierarchy food country, m (k ++ "_" ++ category) = none) :
    find_best_factor m food category (build_lookup_hierarchy food country) =
      (get_default_impact_factor food.category category,
       "Default estimate - high uncertainty",
       (get_default_impact_factor food.category category * 0.5,
        get_default_impact_factor food.category category * 2.0),
       ⟨5, 5, 5, 5, 5⟩) ∧
    strContains "Default estimate - high uncertainty" "Default estimate" = true := by
  refine ⟨?_, by decide⟩
  have aux : ∀ ks : List String, (∀ k ∈ ks, m (k ++ "_" ++ category) = none) →
      find_best_factor m food category ks = defaultFactorTuple food category := by
    intro ks
    induction ks with
    | nil => intro _; rfl
    | cons k rest ih =>
      intro h
      rw [find_best_factor, h k (by simp)]
      exact ih fun k' hk' => h k' (by simp [hk'])
  exact aux _ hmiss

/-- Witness for C2: an empty repository forces the default for a cereal
item's Global warming factor. -/
theorem find_best_factor_default_spec_witness :
    find_best_factor (fun _ => none) riceFoodItem "Global warming"
      (build_lookup_hierarchy riceFoodItem .Ghana) =
      (get_default_impact_factor FoodCategory.Cereals "Global warming",
       "Default estimate - high uncertainty",
       (get_default_impact_factor FoodCategory.Cereals "Global warming" * 0.5,
        get_default_impact_factor FoodCategory.Cereals "Global warming" * 2.0),
       ⟨5, 5, 5, 5, 5⟩) :=
  (find_best_factor_default_spec (fun _ => none) riceFoodItem .Ghana
    "Global warming" (fun _ _ => rfl)).1

/-! ## Midpoint results and their aggregation (from `production/lca.rs`) -/

structure MidpointResult where
  value : ℝ
  unit : String
  uncertainty_range : ℝ × ℝ
  data_quality_score : ℝ
  contributing_sources : List String

/-- `AfricanLCAEngine::aggregate_midpoint_results`.  The Rust function
mutates `total` in place: the central value is summed first, the variances
are taken from the two old ranges, the new range is centred on the new
value, and the quality weighting reads the already-updated `total.value`. -/
def aggregate_midpoint_results (total addition : MidpointResult) : MidpointResult :=
  let value := total.value + addition.value
  let total_variance := (total.uncertainty_range.2 - total.uncertainty_range.1) ^ 2 / 16
  let addition_variance := (addition.uncertainty_range.2 - addition.uncertainty_range.1) ^ 2 / 16
  let combined_variance := total_variance + addition_variance
  let combined_std := Real.sqrt combined_variance
  let total_contribution := value
  let addition_contribution := addition.value
  let total_weight := total_contribution + addition_contribution
  { value := value
    unit := total.unit
    uncertainty_range := (max (value - 2 * combined_std) 0, value + 2 * combined_std)
    data_quality_score :=
      if 0 < total_weight then
        (total.data_quality_score * total_contribution +
         addition.data_quality_score * addition_contribution) / total_weight
      else total.data_quality_score
    contributing_sources := total.contributing_sources ++ addition.contributing_sources }

/-- C3 (amended): aggregating two midpoint results sums the central values
and rebuilds the range centred on the sum with half-width
`2·sqrt(((h1−l1)² + (h2−l2)²)/16)`, clamping the lower bound at `0`; the
"combined range is at least as wide as the narrower input" consequence
holds whenever the zero clamp does not bite. -/
theorem aggregate_midpoint_results_spec (t a : MidpointResult) :
    (aggregate_midpoint_results t a).value = t.value + a.value ∧
    (aggregate_midpoint_results t a).uncertainty_range =
      (max (t.value + a.value -
          2 * Real.sqrt (((t.uncertainty_range.2 - t.uncertainty_range.1) ^ 2 +
                          (a.uncertainty_range.2 - a.uncertainty_range.1) ^ 2) / 16)) 0,
       t.value + a.value +
          2 * Real.sqrt (((t.uncertainty_range.2 - t.uncertainty_range.1) ^ 2 +
                          (a.uncertainty_range.2 - a.uncertainty_range.1) ^ 2) / 16)) ∧
    (0 ≤ t.value + a.value -
          2 * Real.sqrt (((t.uncertainty_range.2 - t.uncertainty_range.1) ^ 2 +
                          (a.uncertainty_range.2 - a.uncertainty_range.1) ^ 2) / 16) →
      min (t.uncertainty_range.2 - t.uncertainty_range.1)
          (a.uncertainty_range.2 - a.uncertainty_range.1) ≤
        (aggregate_midpoint_results t a).uncertainty_range.2 -
          (aggregate_midpoint_results t a).uncertainty_range.1) := by
  set w1 := t.uncertainty_range.2 - t.uncertainty_range.1 with hw1
  set w2 := a.uncertainty_range.2 - a.uncertainty_range.1 with hw2
  have hvar : w1 ^ 2 / 16 + w2 ^ 2 / 16 = (w1 ^ 2 + w2 ^ 2) / 16 := by ring
  have hσ4 : 4 * Real.sqrt ((w1 ^ 2 + w2 ^ 2) / 16) = Real.sqrt (w1 ^ 2 + w2 ^ 2) := by
    rw [show (w1 ^ 2 + w2 ^ 2) / 16 = (w1 ^ 2 + w2 ^ 2) * (1 / 16) by ring,
      Real.sqrt_mul (by positivity),
      show (1 : ℝ) / 16 = (1 / 4) ^ 2 by norm_num,
      Real.sqrt_sq (by norm_num)]
    ring
  refine ⟨rfl, ?_, ?_⟩
  · simp only [aggregate_midpoint_results, hvar]
  · intro hnoclamp
    have hkey : min w1 w2 ≤ Real.sqrt (w1 ^ 2 + w2 ^ 2) := by
      calc min w1 w2 ≤ w1 := min_le_left _ _
        _ ≤ |w1| := le_abs_self _
        _ = Real.sqrt (w1 ^ 2) := (Real.sqrt_sq_eq_abs w1).symm
        _ ≤ Real.sqrt (w1 ^ 2 + w2 ^ 2) := Real.sqrt_le_sqrt (by nlinarith [sq_nonneg w2])
    have hmax : max (t.value + a.value -
        2 * Real.sqrt ((w1 ^ 2 + w2 ^ 2) / 16)) 0 =
        t.value + a.value - 2 * Real.sqrt ((w1 ^ 2 + w2 ^ 2) / 16) :=
      max_eq_left hnoclamp
    simp only [aggregate_midpoint_results, hvar, hmax]
    calc min w1 w2 ≤ Real.sqrt (w1 ^ 2 + w2 ^ 2) := hkey
      _ = 4 * Real.sqrt ((w1 ^ 2 + w2 ^ 2) / 16) := hσ4.symm
      _ = t.value + a.value + 2 * Real.sqrt ((w1 ^ 2 + w2 ^ 2) / 16) -
          (t.value + a.value - 2 * Real.sqrt ((w1 ^ 2 + w2 ^ 2) / 16)) := by ring

def tenCentredResult : MidpointResult :=
  { value := 10, unit := "kg CO2-eq", uncertainty_range := (9, 11),
    data_quality_score := 0.8, contributing_sources := [] }

/-- Witness for the amended C3 at inputs where the zero clamp does not
bite. -/
theorem aggregate_midpoint_results_spec_witness :
    (aggregate_midpoint_results tenCentredResult tenCentredResult).value =
      tenCentredResult.value + tenCentredResult.value ∧
    min (tenCentredResult.uncertainty_range.2 - tenCentredResult.uncertainty_range.1)
        (tenCentredResult.uncertainty_range.2 - tenCentredResult.uncertainty_range.1) ≤
      (aggregate_midpoint_results tenCentredResult tenCentredResult).uncertainty_range.2 -
        (aggregate_midpoint_results tenCentredResult tenCentredResult).uncertainty_range.1 := by
  have h := aggregate_midpoint_results_spec tenCentredResult tenCentredResult
  refine ⟨h.1, h.2.2 ?_⟩
  have hs : Real.sqrt ((1 : ℝ) / 2) < 1 := by
    nlinarith [Real.sq_sqrt (by norm_num : (0 : ℝ) ≤ 1 / 2), Real.sqrt_nonneg ((1 : ℝ) / 2)]
  simp only [tenCentredResult]
  rw [show (((11 : ℝ) - 9) ^ 2 + ((11 : ℝ) - 9) ^ 2) / 16 = 1 / 2 by norm_num]
  linarith

/-- A midpoint result with central value `0` and range `(0, 2)`:
aggregating it with itself makes the zero clamp bite. -/
def zeroCentredResult : MidpointResult :=
  { value := 0, unit := "kg CO2-eq", uncertainty_range := (0, 2),
    data_quality_score := 0.8, contributing_sources := [] }

/-- Counterexample to C3 as stated: aggregating two results with value `0`
and range `(0, 2)` yields the clamped range `(0, √2)`, whose width `√2` is
strictly narrower than both inputs' width `2`. -/
theorem aggregate_midpoint_results_counterexample :
    (aggregate_midpoint_results zeroCentredResult zeroCentredResult).uncertainty_range.2 -
      (aggregate_midpoint_results zeroCentredResult zeroCentredResult).uncertainty_range.1 <
    min (zeroCentredResult.uncertainty_range.2 - zeroCentredResult.uncertainty_range.1)
        (zeroCentredResult.uncertainty_range.2 - zeroCentredResult.uncertainty_range.1) := by
  have harg : ((2 : ℝ) - 0) ^ 2 / 16 + ((2 : ℝ) - 0) ^ 2 / 16 = 1 / 2 := by norm_num
  have hs : Real.sqrt (1 / 2) < 1 := by
    nlinarith [Real.sq_sqrt (by norm_num : (0 : ℝ) ≤ 1 / 2), Real.sqrt_nonneg ((1 : ℝ) / 2)]
  have hs0 : 0 ≤ Real.sqrt ((1 : ℝ) / 2) := Real.sqrt_nonneg _
  simp only [aggregate_midpoint_results, zeroCentredResult, harg]
  rw [max_eq_right (by linarith), min_self]
  linarith

/-! ## Result maps and external string functions -/

/-- Abstract models of pure library string functions: Rust's `f64`
Display/precision formatting (`fmtFloat fmt x`), `str::parse::<f64>`, and
the repository's `extract_fuel_consumption` provenance-string scraping.
No claim depends on their output, so every theorem quantifies over them. -/
structure StrFns where
  fmtFloat : String → ℝ → String
  parseF64 : String → Option ℝ
  extractFuel : String → Option ℝ

/-- The mutable `HashMap<String, MidpointResult>` of midpoint results,
modelled as an association list. -/
abbrev ImpactsMap : Type := List (String × MidpointResult)

def mapGet? (m : ImpactsMap) (k : String) : Option MidpointResult :=
  match m with
  | [] => none
  | (k', v) :: rest => if k' = k then some v else mapGet? rest k

/-- `HashMap::insert`: replace the binding if the key is present, add it
otherwise. -/
def mapInsert (m : ImpactsMap) (k : String) (v : MidpointResult) : ImpactsMap :=
  match m with
  | [] => [(k, v)]
  | (k', v') :: rest => if k' = k then (k, v) :: rest else (k', v') :: mapInsert rest k v

lemma mapGet?_insert_self (m : ImpactsMap) (k : String) (v : MidpointResult) :
    mapGet? (mapInsert m k v) k = some v := by
  induction m with
  | nil => simp [mapInsert, mapGet?]
  | cons kv rest ih =>
    obtain ⟨k', v'⟩ := kv
    by_cases h : k' = k
    · simp [mapInsert, h, mapGet?]
    · simp [mapInsert, h, mapGet?, ih]

lemma mapGet?_insert_ne (m : ImpactsMap) (k : String) (v : MidpointResult)
    (k' : String) (h : k' ≠ k) :
    mapGet? (mapInsert m k v) k' = mapGet? m k' := by
  have h' : k ≠ k' := Ne.symm h
  induction m with
  | nil => simp [mapInsert, mapGet?, h']
  | cons kv rest ih =>
    obtain ⟨k'', v''⟩ := kv
    by_cases hk : k'' = k
    · subst hk
      simp [mapInsert, mapGet?, h']
    · simp only [mapInsert, if_neg hk, mapGet?]
      by_cases hk' : k'' = k'
      · simp [hk']
      · simp [hk', ih]

/-! ## Regional water-scarcity adjustment (from `production/lca.rs`) -/

/-- The AWARE factor chosen by `apply_regional_adjustments` from the
engine's `regional_factors` table, with per-country literal defaults. -/
def awareFactorOf (regional_factors : String → Option ℝ) (country : Country)
    (region : Option String) : ℝ :=
  match country, region with
  | .Ghana, _ => (regional_factors "Ghana_water_scarcity").getD 20.0
  | .Nigeria, some "Northern" => (regional_factors "Nigeria_north_water_scarcity").getD 30.0
  | .Nigeria, _ => (regional_factors "Nigeria_south_water_scarcity").getD 15.0
  | _, _ => 1.0

/-- `AfricanLCAEngine::apply_regional_adjustments`: if a
`"Water consumption"` midpoint exists, insert a `"Water scarcity"` result
scaled by the AWARE factor; otherwise do nothing. -/
def apply_regional_adjustments (E : StrFns) (regional_factors : String → Option ℝ)
    (impacts : ImpactsMap) (country : Country) (region : Option String) : ImpactsMap :=
  match mapGet? impacts "Water consumption" with
  | none => impacts
  | some water_result =>
    let aware_factor := awareFactorOf regional_factors country region
    let water_scarcity_impact : MidpointResult :=
      { value := water_result.value * aware_factor
        unit := "m3 H2O-eq"
        uncertainty_range := (water_result.uncertainty_range.1 * aware_factor,
                              water_result.uncertainty_range.2 * aware_factor)
        data_quality_score := water_result.data_quality_score
        contributing_sources := ["AWARE regional factor: " ++ E.fmtFloat "" aware_factor] }
    mapInsert impacts "Water scarcity" water_scarcity_impact

/-- C9: when the midpoint map has a `"Water consumption"` entry,
`apply_regional_adjustments` inserts a `"Water scarcity"` entry whose value
and uncertainty bounds are the water-consumption ones scaled by the
country/region AWARE factor, while the `"Water consumption"` entry itself
and every other key are left unchanged. -/
theorem apply_regional_adjustments_spec (E : StrFns) (rf : String → Option ℝ)
    (impacts : ImpactsMap) (country : Country) (region : Option String)
    (wr : MidpointResult) (hwc : mapGet? impacts "Water consumption" = some wr) :
    mapGet? (apply_regional_adjustments E rf impacts country region) "Water scarcity" =
      some { value := wr.value * awareFactorOf rf country region
             unit := "m3 H2O-eq"
             uncertainty_range := (wr.uncertainty_range.1 * awareFactorOf rf country region,
                                   wr.uncertainty_range.2 * awareFactorOf rf country region)
             data_quality_score := wr.data_quality_score
             contributing_sources :=
               ["AWARE regional factor: " ++
                 E.fmtFloat "" (awareFactorOf rf country region)] } ∧
    mapGet? (apply_regional_adjustments E rf impacts country region) "Water consumption" =
      some wr ∧
    (∀ k, k ≠ "Water scarcity" →
      mapGet? (apply_regional_adjustments E rf impacts country region) k =
        mapGet? impacts k) := by
  have hne : ∀ k, k ≠ "Water scarcity" →
      mapGet? (apply_regional_adjustments E rf impacts country region) k =
        mapGet? impacts k := by
    intro k hk
    rw [apply_regional_adjustments, hwc]
    exact mapGet?_insert_ne _ _ _ _ hk
  refine ⟨?_, ?_, hne⟩
  · rw [apply_regional_adjustments, hwc]
    exact mapGet?_insert_self _ _ _
  · rw [hne "Water consumption" (by decide), hwc]

/-! ### Concrete frame-effect scenario for C9 -/

def trivialStrFns : StrFns :=
  { fmtFloat := fun _ _ => "", parseF64 := fun _ => none, extractFuel := fun _ => none }

def waterConsResult : MidpointResult :=
  { value := 4000, unit := "m3", uncertainty_range := (3000, 5000),
    data_quality_score := 0.8, contributing_sources := ["Irrigation water (Drip irrigation)"] }

def gwResult : MidpointResult :=
  { value := 120, unit := "kg CO2-eq", uncertainty_range := (96, 144),
    data_quality_score := 0.8, contributing_sources := [] }

def sampleImpacts : ImpactsMap :=
  [("Global warming", gwResult), ("Water consumption", waterConsResult)]

/-- Witness for C9: a Ghana assessment with no loaded regional factors
inserts Water scarcity at the default AWARE factor and leaves Global
warming and Water consumption untouched. -/
theorem apply_regional_adjustments_spec_witness :
    mapGet? (apply_regional_adjustments trivialStrFns (fun _ => none)
        sampleImpacts .Ghana none) "Water scarcity" =
      some { value := waterConsResult.value * awareFactorOf (fun _ => none) .Ghana none
             unit := "m3 H2O-eq"
             uncertainty_range :=
               (waterConsResult.uncertainty_range.1 * awareFactorOf (fun _ => none) .Ghana none,
                waterConsResult.uncertainty_range.2 * awareFactorOf (fun _ => none) .Ghana none)
             data_quality_score := waterConsResult.data_quality_score
             contributing_sources :=
               ["AWARE regional factor: " ++
                 trivialStrFns.fmtFloat "" (awareFactorOf (fun _ => none) .Ghana none)] } ∧
    mapGet? (apply_regional_adjustments trivialStrFns (fun _ => none)
        sampleImpacts .Ghana none) "Global warming" = some gwResult := by
  have h := apply_regional_adjustments_spec trivialStrFns (fun _ => none)
    sampleImpacts .Ghana none waterConsResult (by rfl)
  exact ⟨h.1, by rw [h.2.2 "Global warming" (by decide)]; rfl⟩

/-! ## Endpoint results and the single score (from `production/lca.rs`) -/

structure EndpointResult where
  value : ℝ
  unit : String
  uncertainty_range : ℝ × ℝ
  normalization_factor : Option ℝ
  regional_adaptation_factor : Option ℝ

inductive SystemBoundary where
  | CradleToGate
  | CradleToGrave
  | GateToGate
  | FarmToFork
deriving DecidableEq

inductive AllocationMethod where
  | Mass
  | Economic
  | SystemExpansion
  | Causal
deriving DecidableEq

inductive CharacterizationMethod where
  | IpccAr6
  | IpccAr5
  | ReCiPe2016
  | ReCiPe2008
  | TRACI
  | CML
deriving DecidableEq

structure LCAMethodology where
  functional_unit : String
  system_boundary : SystemBoundary
  allocation_method : AllocationMethod
  characterization_method : CharacterizationMethod
  normalization_method : Option NormalizationMethod
  weighting_method : Option WeightingMethod

structure SingleScoreResult where
  value : ℝ
  unit : String
  uncertainty_range : ℝ × ℝ
  weighting_factors : List (String × ℝ)
  methodology : String

def weightGet? (l : List (String × ℝ)) (k : String) : Option ℝ :=
  match l with
  | [] => none
  | (k', v) :: rest => if k' = k then some v else weightGet? rest k

/-- The fixed weighting table chosen by `calculate_enhanced_single_score`
from the methodology's weighting method. -/
def weightingFactorsFor (w : Option WeightingMethod) : List (String × ℝ) :=
  match w with
  | some .AfricanPriorities =>
      [("Human Health", 0.40), ("Ecosystem Quality", 0.35), ("Resource Scarcity", 0.25)]
  | some .EqualWeights =>
      [("Human Health", 0.333), ("Ecosystem Quality", 0.333), ("Resource Scarcity", 0.334)]
  | _ =>
      [("Human Health", 0.333), ("Ecosystem Quality", 0.333), ("Resource Scarcity", 0.334)]

/-- The fallback normalization references used when an endpoint result has
no embedded normalization factor. -/
def normFallback (category : String) : ℝ :=
  if category = "Human Health" then 2.2e-2
  else if category = "Ecosystem Quality" then 1.8e-9
  else if category = "Resource Scarcity" then 4.2e3
  else 1.0

/-- The accumulation loop of `calculate_enhanced_single_score`: weighted
normalized score, summed squared weighted uncertainties, and the recorded
normalization references. -/
def singleScoreAccum (weights : List (String × ℝ))
    (endpoint : List (String × EndpointResult)) : ℝ × ℝ × List (String × ℝ) :=
  endpoint.foldl
    (fun acc ce =>
      match weightGet? weights ce.1 with
      | none => acc
      | some weight =>
        let norm_factor := ce.2.normalization_factor.getD (normFallback ce.1)
        let normalized_score := ce.2.value / norm_factor
        let weighted_score := normalized_score * weight
        let result_uncertainty := (ce.2.uncertainty_range.2 - ce.2.uncertainty_range.1) / 4
        let normalized_uncertainty := result_uncertainty / norm_factor
        let weighted_uncertainty := normalized_uncertainty * weight
        (acc.1 + weighted_score, acc.2.1 + weighted_uncertainty ^ 2,
         acc.2.2 ++ [(ce.1, norm_factor)]))
    (0, 0, [])

/-- `AfricanLCAEngine::calculate_enhanced_single_score`. -/
def calculate_enhanced_single_score (E : StrFns) (methodology : LCAMethodology)
    (endpoint : List (String × EndpointResult)) : SingleScoreResult :=
  let weighting_factors := weightingFactorsFor methodology.weighting_method
  let acc := singleScoreAccum weighting_factors endpoint
  let single_score := acc.1
  let score_std := Real.sqrt acc.2.1
  let display_score := max (min (single_score / 2) 1) 0
  { value := display_score
    unit := "Environmental Impact Score (0-1 scale, 1.0 = 2× reference impact)"
    uncertainty_range := (max ((single_score - 2 * score_std) / 2) 0,
                          min ((single_score + 2 * score_std) / 2) 1)
    weighting_factors := weighting_factors
    methodology :=
      "ISO 14044 compliant: " ++
        (methodology.normalization_method.getD .NoneN).debugStr ++
        " normalization with " ++
        (methodology.weighting_method.getD .NoneW).debugStr ++
        " weighting. Raw score: " ++ E.fmtFloat ".3" single_score ++ " person-equiv." }

/-- C6: whatever the endpoint results are, the single-score value is the
raw weighted-normalized score divided by 2 and clamped to `[0, 1]`, so it
always lies in `[0, 1]`. -/
theorem calculate_enhanced_single_score_clamped (E : StrFns)
    (methodology : LCAMethodology) (endpoint : List (String × EndpointResult)) :
    (calculate_enhanced_single_score E methodology endpoint).value =
      max (min ((singleScoreAccum (weightingFactorsFor methodology.weighting_method)
          endpoint).1 / 2) 1) 0 ∧
    0 ≤ (calculate_enhanced_single_score E methodology endpoint).value ∧
    (calculate_enhanced_single_score E methodology endpoint).value ≤ 1 :=
  ⟨rfl, le_max_right _ _, max_le (min_le_right _ _) zero_le_one⟩

/-! ## Life-cycle inventory (from `production/lci.rs`) -/

inductive EnvironmentalCompartment where
  | Air
  | Water
  | Soil
  | Resource
deriving DecidableEq

/-- Rust `{:?}` debug string of the compartment, used in inventory keys. -/
def EnvironmentalCompartment.debugStr : EnvironmentalCompartment → String
  | .Air => "Air"
  | .Water => "Water"
  | .Soil => "Soil"
  | .Resource => "Resource"

structure InventoryItem where
  substance : String
  quantity : ℝ
  unit : String
  compartment : EnvironmentalCompartment
  source : String

/-- The calculator's `inventory: HashMap<String, InventoryItem>` keyed by
`"{substance}_{compartment:?}"`, as an association list. -/
abbrev Inventory : Type := List (String × InventoryItem)

def invGet? (inv : Inventory) (k : String) : Option InventoryItem :=
  match inv with
  | [] => none
  | (k', v) :: rest => if k' = k then some v else invGet? rest k

def invKey (item : InventoryItem) : String :=
  item.substance ++ "_" ++ item.compartment.debugStr

/-- In-place aggregation of an existing entry: quantities sum, provenance
strings concatenate with `", "`. -/
def invUpdate (inv : Inventory) (key : String) (item : InventoryItem) : Inventory :=
  match inv with
  | [] => []
  | (k, it) :: rest =>
    if k = key then
      (k, { it with quantity := it.quantity + item.quantity,
                    source := it.source ++ ", " ++ item.source }) :: rest
    else (k, it) :: invUpdate rest key item

/-- `LCICalculator::add_inventory_item`. -/
def add_inventory_item (inv : Inventory) (item : InventoryItem) : Inventory :=
  if (invGet? inv (invKey item)).isSome then invUpdate inv (invKey item) item
  else inv ++ [(invKey item, item)]

lemma invGet?_append_single (inv : Inventory) (key : String) (item : InventoryItem)
    (k : String) :
    invGet? (inv ++ [(key, item)]) k =
      ((invGet? inv k).orElse fun _ => if key = k then some item else none) := by
  induction inv with
  | nil => simp [invGet?]
  | cons kv rest ih =>
    obtain ⟨k', v'⟩ := kv
    by_cases h : k' = k
    · simp [invGet?, h, Option.orElse]
    · simpa [invGet?, h] using ih

lemma invGet?_update_ne (inv : Inventory) (key : String) (item : InventoryItem)
    (k : String) (h : key ≠ k) :
    invGet? (invUpdate inv key item) k = invGet? inv k := by
  induction inv with
  | nil => rfl
  | cons kv rest ih =>
    obtain ⟨k', v'⟩ := kv
    by_cases hk : k' = key
    · subst hk
      simp [invUpdate, invGet?, h]
    · simp only [invUpdate, if_neg hk, invGet?]
      by_cases hk' : k' = k
      · simp [hk']
      · simp [hk', ih]

lemma invGet?_add_ne (inv : Inventory) (item : InventoryItem) (k : String)
    (h : invKey item ≠ k) :
    invGet? (add_inventory_item inv item) k = invGet? inv k := by
  rw [add_inventory_item]
  by_cases hs : (invGet? inv (invKey item)).isSome
  · rw [if_pos hs]
    exact invGet?_update_ne inv _ item k h
  · rw [if_neg hs, invGet?_append_single, if_neg h]
    cases hg : invGet? inv k <;> simp [Option.orElse]

lemma invGet?_add_new (inv : Inventory) (item : InventoryItem)
    (h : invGet? inv (invKey item) = none) :
    invGet? (add_inventory_item inv item) (invKey item) = some item := by
  rw [add_inventory_item, if_neg (by simp [h]), invGet?_append_single, h]
  simp [Option.orElse]

/-! ## Management-practice input records (from `production/models.rs`) -/

inductive SoilType where
  | Sandy
  | Clay
  | Loam
  | SandyLoam
  | ClayLoam
  | SiltLoam
  | Lateritic
  | Volcanic
deriving DecidableEq

structure FertilizerApplication where
  fertilizer_type : String
  npk_ratio : Option String
  application_rate : ℝ
  applications_per_season : ℕ
  cost : Option ℝ

structure FertilizationPractices where
  uses_fertilizers : Bool
  fertilizer_applications : List FertilizerApplication
  soil_test_based : Bool
  follows_nutrient_plan : Bool

structure SoilManagement where
  soil_type : Option SoilType
  uses_compost : Bool
  compost_source : Option String
  conservation_practices : List String
  soil_testing_frequency : Option String

structure WaterManagement where
  water_source : List String
  irrigation_system : Option String
  water_conservation_practices : List String

structure PesticideApplication where
  pesticide_type : String
  active_ingredient : String
  application_rate : ℝ
  applications_per_season : ℕ
  target_pests : List String

structure PestManagement where
  management_approach : String
  uses_ipm : Bool
  pesticides_used : List PesticideApplication
  monitoring_frequency : Option String

structure ManagementPractices where
  soil_management : SoilManagement
  fertilization : FertilizationPractices
  water_management : WaterManagement
  pest_management : PestManagement

/-! ## Emission factors (values of `EmissionFactorsDatabase::default`;
the citation metadata strings of each factor are not used by any
computation and are not modelled) -/

structure EmissionFactorsDatabase where
  n2o_from_n_fertilizer : ℝ
  co2_from_diesel : ℝ
  co2_from_petrol : ℝ
  co2_from_electricity_ghana : ℝ
  co2_from_electricity_nigeria : ℝ
  co2_from_urea_production : ℝ
  co2_from_npk_production : ℝ
  pesticide_production_impact : ℝ
  water_use_factor : ℝ
  ch4_from_rice_paddies : ℝ

def defaultEmissionFactors : EmissionFactorsDatabase :=
  { n2o_from_n_fertilizer := 0.01
    co2_from_diesel := 2.68
    co2_from_petrol := 2.31
    co2_from_electricity_ghana := 0.45
    co2_from_electricity_nigeria := 0.58
    co2_from_urea_production := 1.2
    co2_from_npk_production := 1.5
    pesticide_production_impact := 10.0
    water_use_factor := 1.0
    ch4_from_rice_paddies := 200.0 }

/-! ## Fertilizer emissions (from `production/lci.rs`) -/

/-- `LCICalculator::get_nitrogen_content`. -/
def get_nitrogen_content (E : StrFns) (fertilizer_type : String)
    (npk_ratio : Option String) : ℝ :=
  if fertilizer_type = "Urea" then 0.46
  else if fertilizer_type = "Diammonium Phosphate (DAP)" ∨ fertilizer_type = "DAP" then 0.18
  else if fertilizer_type = "NPK Compound" ∨ fertilizer_type = "NPK" then
    match npk_ratio with
    | some ratio =>
      match (ratio.splitOn "-").head? with
      | some n_str =>
        match E.parseF64 n_str.trim with
        | some n_percent => n_percent / 100
        | none => 0.15
      | none => 0.15
    | none => 0.15
  else if fertilizer_type = "Ammonium Sulfate" then 0.21
  else if fertilizer_type = "Calcium Ammonium Nitrate" ∨ fertilizer_type = "CAN" then 0.27
  else 0.10

/-- The total cultivated area `Σ area_allocated` over the food items. -/
def totalAreaHa (foods : List FoodItem) : ℝ :=
  (foods.filterMap (·.area_allocated)).sum

/-- The mineral-depletion additions for one fertilizer application
(NPK phosphate and potash mining, in Fe-equivalents). -/
def mineralDepletionAdds (E : StrFns) (app : FertilizerApplication)
    (total_fertilizer_kg : ℝ) (inv : Inventory) : Inventory :=
  if app.fertilizer_type = "NPK Compound" ∨ app.fertilizer_type = "NPK" then
    match app.npk_ratio with
    | some npk_ratio =>
      let parts := npk_ratio.splitOn "-"
      if parts.length = 3 then
        let inv :=
          match (parts.get? 1).bind E.parseF64 with
          | some p_percent =>
            let p2o5_kg := total_fertilizer_kg * (p_percent / 100)
            let phosphate_depletion := p2o5_kg * 0.3
            add_inventory_item inv
              ⟨"Phosphate rock", phosphate_depletion, "kg Fe-eq", .Resource,
               "Phosphate mining for " ++ app.fertilizer_type ++ " production"⟩
          | none => inv
        match (parts.get? 2).bind E.parseF64 with
        | some k_percent =>
          let k2o_kg := total_fertilizer_kg * (k_percent / 100)
          let potash_depletion := k2o_kg * 0.2
          add_inventory_item inv
            ⟨"Potash", potash_depletion, "kg Fe-eq", .Resource,
             "Potash mining for " ++ app.fertilizer_type ++ " production"⟩
        | none => inv
      else inv
    | none => inv
  else inv

/-- The per-application body of
`LCICalculator::calculate_fertilizer_emissions`. -/
def fertilizerAppEmissions (E : StrFns) (total_area_ha : ℝ)
    (app : FertilizerApplication) (inv : Inventory) : Inventory :=
  let n_content := get_nitrogen_content E app.fertilizer_type app.npk_ratio
  let n_applied_per_ha := app.application_rate * n_content
  let applications_per_year := (app.applications_per_season : ℝ)
  let total_n_applied := n_applied_per_ha * total_area_ha * applications_per_year
  let n2o_n_direct := total_n_applied * defaultEmissionFactors.n2o_from_n_fertilizer
  let n2o_direct := n2o_n_direct * (44 / 28)
  let inv := add_inventory_item inv
    ⟨"Dinitrogen monoxide (N2O)", n2o_direct, "kg", .Air,
     "Direct N2O emissions from " ++ app.fertilizer_type ++ " application"⟩
  let production_co2 :=
    if app.fertilizer_type = "Urea" then
      app.application_rate * total_area_ha * applications_per_year *
        defaultEmissionFactors.co2_from_urea_production
    else if app.fertilizer_type = "NPK Compound" ∨ app.fertilizer_type = "NPK" then
      app.application_rate * total_area_ha * applications_per_year *
        defaultEmissionFactors.co2_from_npk_production
    else
      app.application_rate * total_area_ha * applications_per_year * 1.0
  let inv := add_inventory_item inv
    ⟨"Carbon dioxide (CO2)", production_co2, "kg", .Air,
     "Production and transport of " ++ app.fertilizer_type⟩
  let total_fertilizer_kg := app.application_rate * total_area_ha * applications_per_year
  let inv := mineralDepletionAdds E app total_fertilizer_kg inv
  let n_volatilized_leached := total_n_applied * 0.20
  let n2o_n_indirect := n_volatilized_leached * 0.01
  let n2o_indirect := n2o_n_indirect * (44 / 28)
  let inv := add_inventory_item inv
    ⟨"Dinitrogen monoxide (N2O) - indirect", n2o_indirect, "kg", .Air,
     "Indirect N2O emissions from " ++ app.fertilizer_type ++ " (volatilization/leaching)"⟩
  let no3_leached := n_volatilized_leached * (62 / 14)
  add_inventory_item inv
    ⟨"Nitrate (NO3-)", no3_leached, "kg", .Water,
     "Nitrate leaching from " ++ app.fertilizer_type ++ " application"⟩

/-- `LCICalculator::calculate_fertilizer_emissions`. -/
def calculate_fertilizer_emissions (E : StrFns)
    (fertilization : FertilizationPractices) (foods : List FoodItem)
    (inv : Inventory) : Inventory :=
  if fertilization.uses_fertilizers then
    let total_area_ha := totalAreaHa foods
    if total_area_ha = 0 then inv
    else
      fertilization.fertilizer_applications.foldl
        (fun acc app => fertilizerAppEmissions E total_area_ha app acc) inv
  else inv

lemma invGet?_add_mk_ne (inv : Inventory) (s : String) (q : ℝ) (u : String)
    (c : EnvironmentalCompartment) (src k : String)
    (h : ¬ s ++ "_" ++ c.debugStr = k) :
    invGet? (add_inventory_item inv ⟨s, q, u, c, src⟩) k = invGet? inv k :=
  invGet?_add_ne inv _ k h

lemma invGet?_add_mk_new (inv : Inventory) (s : String) (q : ℝ) (u : String)
    (c : EnvironmentalCompartment) (src k : String)
    (hk : s ++ "_" ++ c.debugStr = k) (h : invGet? inv k = none) :
    invGet? (add_inventory_item inv ⟨s, q, u, c, src⟩) k = some ⟨s, q, u, c, src⟩ := by
  subst hk
  exact invGet?_add_new inv _ h

lemma invGet?_mineralDepletionAdds_ne (E : StrFns) (app : FertilizerApplication)
    (tf : ℝ) (inv : Inventory) (k : String)
    (h1 : ¬ k = "Phosphate rock_Resource") (h2 : ¬ k = "Potash_Resource") :
    invGet? (mineralDepletionAdds E app tf inv) k = invGet? inv k := by
  have hph : ∀ q s, invKey ⟨"Phosphate rock", q, "kg Fe-eq", .Resource, s⟩ ≠ k :=
    fun q s => fun hc => h1 hc.symm
  have hpo : ∀ q s, invKey ⟨"Potash", q, "kg Fe-eq", .Resource, s⟩ ≠ k :=
    fun q s => fun hc => h2 hc.symm
  unfold mineralDepletionAdds
  split
  · split
    · dsimp only
      split
      · split
        · rw [invGet?_add_ne _ _ _ (hpo _ _)]
          split
          · rw [invGet?_add_ne _ _ _ (hph _ _)]
          · rfl
        · split
          · rw [invGet?_add_ne _ _ _ (hph _ _)]
          · rfl
      · rfl
    · rfl
  · rfl

/-- C4 (amended): for every fertilizer application processed with positive
total allocated area, 20% of the total applied nitrogen is treated as lost
to volatilization/leaching; of that lost nitrogen, 1% becomes indirect
N2O-N (converted to N2O mass by ×44/28), and the **entire** lost nitrogen
(not merely the remainder that is not converted to N2O-N) is added to the
Water compartment as nitrate with mass conversion ×(62/14). -/
theorem calculate_fertilizer_emissions_spec (E : StrFns)
    (fert : FertilizationPractices) (app : FertilizerApplication)
    (foods : List FoodItem)
    (huse : fert.uses_fertilizers = true)
    (happ : fert.fertilizer_applications = [app])
    (harea : totalAreaHa foods ≠ 0) :
    invGet? (calculate_fertilizer_emissions E fert foods [])
        "Dinitrogen monoxide (N2O) - indirect_Air" =
      some ⟨"Dinitrogen monoxide (N2O) - indirect",
            app.application_rate * get_nitrogen_content E app.fertilizer_type app.npk_ratio *
              totalAreaHa foods * (app.applications_per_season : ℝ) * 0.20 * 0.01 * (44 / 28),
            "kg", .Air,
            "Indirect N2O emissions from " ++ app.fertilizer_type ++
              " (volatilization/leaching)"⟩ ∧
    invGet? (calculate_fertilizer_emissions E fert foods [])
        "Nitrate (NO3-)_Water" =
      some ⟨"Nitrate (NO3-)",
            app.application_rate * get_nitrogen_content E app.fertilizer_type app.npk_ratio *
              totalAreaHa foods * (app.applications_per_season : ℝ) * 0.20 * (62 / 14),
            "kg", .Water,
            "Nitrate leaching from " ++ app.fertilizer_type ++ " application"⟩ := by
  simp only [calculate_fertilizer_emissions, huse, if_true, if_neg harea, happ,
    List.foldl_cons, List.foldl_nil, fertilizerAppEmissions]
  constructor
  · rw [invGet?_add_mk_ne _ _ _ _ _ _ _ (by decide)]
    apply invGet?_add_mk_new _ _ _ _ _ _ _ (by decide)
    rw [invGet?_mineralDepletionAdds_ne _ _ _ _ _ (by decide) (by decide),
      invGet?_add_mk_ne _ _ _ _ _ _ _ (by decide),
      invGet?_add_mk_ne _ _ _ _ _ _ _ (by decide)]
    rfl
  · apply invGet?_add_mk_new _ _ _ _ _ _ _ (by decide)
    rw [invGet?_add_mk_ne _ _ _ _ _ _ _ (by decide),
      invGet?_mineralDepletionAdds_ne _ _ _ _ _ (by decide) (by decide),
      invGet?_add_mk_ne _ _ _ _ _ _ _ (by decide),
      invGet?_add_mk_ne _ _ _ _ _ _ _ (by decide)]
    rfl

/-! ### Concrete fertilizer scenario for C4: urea at 100 kg/ha on 10 ha,
one application per season — 460 kg N applied, 92 kg N lost. -/

def ureaApplication : FertilizerApplication :=
  { fertilizer_type := "Urea", npk_ratio := none, application_rate := 100,
    applications_per_season := 1, cost := none }

def ureaFertilization : FertilizationPractices :=
  { uses_fertilizers := true, fertilizer_applications := [ureaApplication],
    soil_test_based := false, follows_nutrient_plan := false }

def ureaTestFood : FoodItem :=
  { id := "2", name := "Maize", quantity_kg := 5000, category := .Cereals,
    crop_type := some "Maize", origin_country := some "Ghana",
    production_system := some .Conventional, seasonal_factor := none,
    variety := none, area_allocated := some 10, cropping_pattern := none,
    intercropping_partners := none, post_harvest_losses := none }

/-- Counterexample to C4 as stated: for the urea scenario the code emits
`92 × 62/14 = 2852/7 ≈ 407.43` kg of nitrate — computed from the entire
lost nitrogen — whereas the claimed "remainder" formula
`(92 − 0.92) × 62/14 ≈ 403.35` kg gives a different value. -/
theorem calculate_fertilizer_emissions_counterexample :
    (invGet? (calculate_fertilizer_emissions trivialStrFns ureaFertilization
        [ureaTestFood] []) "Nitrate (NO3-)_Water").map (fun it => it.quantity) =
      some (2852 / 7) ∧
    (2852 / 7 : ℝ) ≠ (460 * 0.20 - 460 * 0.20 * 0.01) * (62 / 14) := by
  constructor
  · have harea : totalAreaHa [ureaTestFood] = 10 := by
      simp [totalAreaHa, ureaTestFood]
    norm_num [calculate_fertilizer_emissions, ureaFertilization, harea,
      fertilizerAppEmissions, ureaApplication, get_nitrogen_content,
      mineralDepletionAdds, add_inventory_item, invKey, invGet?, invUpdate,
      defaultEmissionFactors, EnvironmentalCompartment.debugStr]
    simp
  · norm_num

/-- Witness for the amended C4 at the concrete urea scenario. -/
theorem calculate_fertilizer_emissions_spec_witness :
    invGet? (calculate_fertilizer_emissions trivialStrFns ureaFertilization
        [ureaTestFood] []) "Nitrate (NO3-)_Water" =
      some ⟨"Nitrate (NO3-)",
            ureaApplication.application_rate *
              get_nitrogen_content trivialStrFns ureaApplication.fertilizer_type
                ureaApplication.npk_ratio *
              totalAreaHa [ureaTestFood] * (ureaApplication.applications_per_season : ℝ) *
              0.20 * (62 / 14),
            "kg", .Water,
            "Nitrate leaching from " ++ ureaApplication.fertilizer_type ++ " application"⟩ :=
  (calculate_fertilizer_emissions_spec trivialStrFns ureaFertilization ureaApplication
    [ureaTestFood] rfl rfl (by simp [totalAreaHa, ureaTestFood])).2

/-! ## Assessment input (from `production/models.rs`; fields not read by
the embedded pipeline — dates, farm profile, equipment/energy, stored
results — are omitted) -/

structure Assessment where
  id : String
  company_name : String
  country : Country
  region : Option String
  foods : List FoodItem
  management_practices : Option ManagementPractices

/-- Total production mass `Σ quantity_kg`. -/
def totalProductionKg (foods : List FoodItem) : ℝ :=
  (foods.map (·.quantity_kg)).sum

/-! ## Basic midpoint characterization
(`LCICalculator::calculate_midpoint_impacts` in `production/lci.rs`).
The Rust accumulation loops write running totals into the map entry for a
single fixed category; they are embedded as one map update per category
with the loop total expressed as a sum over the inventory, which yields
the identical map. -/

def impactCategoriesList : List String :=
  ["Global warming", "Water consumption", "Water scarcity", "Land use",
   "Biodiversity loss", "Soil degradation", "Terrestrial acidification",
   "Freshwater eutrophication", "Marine eutrophication", "Fossil depletion",
   "Mineral depletion", "Particulate matter formation", "Photochemical oxidation"]

def get_impact_unit (category : String) : String :=
  if category = "Global warming" then "kg CO2-eq"
  else if category = "Water consumption" then "m3"
  else if category = "Water scarcity" then "m3 H2O-eq"
  else if category = "Land use" then "m2a crop-eq"
  else if category = "Biodiversity loss" then "MSA*m2*yr"
  else if category = "Soil degradation" then "kg soil-eq"
  else if category = "Terrestrial acidification" then "kg SO2-eq"
  else if category = "Freshwater eutrophication" then "kg P-eq"
  else if category = "Marine eutrophication" then "kg N-eq"
  else if category = "Fossil depletion" then "kg oil-eq"
  else if category = "Mineral depletion" then "kg Fe-eq"
  else if category = "Particulate matter formation" then "PM2.5-eq"
  else if category = "Photochemical oxidation" then "kg NMVOC-eq"
  else "Unknown"

def initMidpointImpacts : ImpactsMap :=
  impactCategoriesList.map fun c =>
    (c, { value := 0, unit := get_impact_unit c, uncertainty_range := (0, 0),
          data_quality_score := 0.8, contributing_sources := [] })

def mapModify (m : ImpactsMap) (k : String) (f : MidpointResult → MidpointResult) :
    ImpactsMap :=
  match m with
  | [] => []
  | (k', v) :: rest => if k' = k then (k', f v) :: rest else (k', v) :: mapModify rest k f

/-- One inventory item's contribution to global warming potential
(CO2 direct, N2O ×273, CH4 ×28; IPCC AR6 100-year factors). -/
def gwpContribution (it : InventoryItem) : ℝ :=
  if it.substance = "Carbon dioxide (CO2)" ∨
      it.substance = "Carbon dioxide (CO2) equivalent" then it.quantity
  else if strContains it.substance "N2O" = true then it.quantity * 273.0
  else if it.substance = "Methane (CH4)" then it.quantity * 28.0
  else 0

def gwpTotal (inv : Inventory) : ℝ :=
  (inv.map fun kv => gwpContribution kv.2).sum

def gwpSourceEntry (E : StrFns) (it : InventoryItem) : List String :=
  if it.substance = "Carbon dioxide (CO2)" ∨
      it.substance = "Carbon dioxide (CO2) equivalent" then
    [it.source ++ ": " ++ E.fmtFloat ".2" it.quantity ++ " kg CO2"]
  else if strContains it.substance "N2O" = true then
    [it.source ++ ": " ++ E.fmtFloat ".2" it.quantity ++ " kg N2O (" ++
      E.fmtFloat ".2" (it.quantity * 273.0) ++ " kg CO2-eq)"]
  else if it.substance = "Methane (CH4)" then
    [it.source ++ ": " ++ E.fmtFloat ".2" it.quantity ++ " kg CH4 (" ++
      E.fmtFloat ".2" (it.quantity * 28.0) ++ " kg CO2-eq)"]
  else []

def gwpSources (E : StrFns) (inv : Inventory) : List String :=
  inv.flatMap fun kv => gwpSourceEntry E kv.2

def waterTotal (inv : Inventory) : ℝ :=
  ((inv.filter fun kv => kv.2.substance = "Water").map fun kv => kv.2.quantity).sum

def waterSources (inv : Inventory) : List String :=
  (inv.filter fun kv => kv.2.substance = "Water").map fun kv => kv.2.source

def landUseTotal (inv : Inventory) : ℝ :=
  ((inv.filter fun kv => strContains kv.2.substance "Land occupation" = true).map
    fun kv => kv.2.quantity / 10000).sum

def landUseSources (inv : Inventory) : List String :=
  (inv.filter fun kv => strContains kv.2.substance "Land occupation" = true).map
    fun kv => kv.2.source

def freshwaterEutroTotal (inv : Inventory) : ℝ :=
  ((inv.filter fun kv => strContains kv.2.substance "Nitrate" = true).map
    fun kv => kv.2.quantity * 0.01).sum

def freshwaterEutroSources (inv : Inventory) : List String :=
  (inv.filter fun kv => strContains kv.2.substance "Nitrate" = true).map
    fun kv => kv.2.source

def calculate_midpoint_impacts (E : StrFns) (inv : Inventory) : ImpactsMap :=
  let impacts := initMidpointImpacts
  let impacts := mapModify impacts "Global warming" fun r =>
    { r with value := gwpTotal inv
             contributing_sources := gwpSources E inv
             uncertainty_range := (gwpTotal inv * 0.8, gwpTotal inv * 1.2) }
  let impacts := mapModify impacts "Water consumption" fun r =>
    { r with value := r.value + waterTotal inv
             contributing_sources := r.contributing_sources ++ waterSources inv }
  let impacts := mapModify impacts "Land use" fun r =>
    { r with value := r.value + landUseTotal inv
             contributing_sources := r.contributing_sources ++ landUseSources inv }
  mapModify impacts "Freshwater eutrophication" fun r =>
    { r with value := r.value + freshwaterEutroTotal inv
             contributing_sources := r.contributing_sources ++ freshwaterEutroSources inv }

/-! ## Extended characterization (from `production/lci_extended.rs`) -/

/-- `get_aware_factor` (lci_extended): AWARE water-scarcity factor by
country and region substring. -/
def get_aware_factor (country : Country) (region : Option String) : ℝ :=
  match country, region with
  | .Ghana, some r =>
    if strContains r "Northern" = true ∨ strContains r "Upper" = true then 30.0 else 15.0
  | .Ghana, none => 15.0
  | .Nigeria, some r =>
    if strContains r "Northern" = true ∨ strContains r "Sokoto" = true ∨
        strContains r "Kano" = true then 35.0 else 18.0
  | .Nigeria, none => 18.0
  | _, _ => 20.0

def ProductionSystem.debugStr : ProductionSystem → String
  | .Intensive => "Intensive"
  | .Extensive => "Extensive"
  | .Smallholder => "Smallholder"
  | .Agroforestry => "Agroforestry"
  | .Irrigated => "Irrigated"
  | .Rainfed => "Rainfed"
  | .Organic => "Organic"
  | .Conventional => "Conventional"

/-- Base MSA loss per production system in `calculate_biodiversity_impact`. -/
def baseMsaLoss (ps : Option ProductionSystem) : ℝ :=
  match ps with
  | some .Intensive => 0.30
  | some .Organic => 0.10
  | some .Agroforestry => 0.05
  | some .Extensive => 0.20
  | _ => 0.25

def conservationFactor (mp : Option ManagementPractices) : ℝ :=
  match mp with
  | some mgmt =>
    if 2 < mgmt.soil_management.conservation_practices.length then 0.8
    else if mgmt.soil_management.conservation_practices ≠ [] then 0.9
    else 1.0
  | none => 1.0

def biodiversityLossTotal (foods : List FoodItem)
    (mp : Option ManagementPractices) : ℝ :=
  (foods.filterMap fun f => f.area_allocated.map fun area_ha =>
    baseMsaLoss f.production_system * conservationFactor mp * area_ha * 10000).sum

def biodiversitySources (E : StrFns) (foods : List FoodItem)
    (mp : Option ManagementPractices) : List String :=
  foods.filterMap fun f => f.area_allocated.map fun area_ha =>
    f.name ++ ": " ++
      E.fmtFloat ".0" (baseMsaLoss f.production_system * conservationFactor mp *
        area_ha * 10000) ++
      " m²·yr (production system: " ++
      (f.production_system.getD .Conventional).debugStr ++ ")"

def calculate_biodiversity_impact (E : StrFns) (foods : List FoodItem)
    (management_practices : Option ManagementPractices)
    (_total_area_ha total_production_kg : ℝ) : MidpointResult :=
  { value := biodiversityLossTotal foods management_practices / total_production_kg
    unit := "PDF·m²·yr per kg"
    uncertainty_range :=
      (biodiversityLossTotal foods management_practices * 0.5 / total_production_kg,
       biodiversityLossTotal foods management_practices * 1.5 / total_production_kg)
    data_quality_score := 0.6
    contributing_sources := biodiversitySources E foods management_practices }

def soilConservationFactor (soil_mgmt : SoilManagement) : ℝ :=
  if soil_mgmt.conservation_practices.any
      (fun p => strContains p "No-till" || strContains p "Minimum") then 0.3
  else if soil_mgmt.conservation_practices.any
      (fun p => strContains p "Contour" || strContains p "Terrac") then 0.5
  else if soil_mgmt.conservation_practices ≠ [] then 0.7
  else 1.0

/-- `calculate_soil_degradation`'s accumulated total: erosion (10 t/ha ×
conservation factor, in kg), organic-carbon loss when compost is unused,
and compaction (100 kg/ha). -/
def soilDegradationTotal (soil_mgmt : SoilManagement) (total_area_ha : ℝ) : ℝ :=
  let erosion_total := 10.0 * total_area_ha * soilConservationFactor soil_mgmt
  let afterErosion := erosion_total * 1000
  let afterSoc :=
    if soil_mgmt.uses_compost then afterErosion
    else afterErosion + total_area_ha * 500.0
  afterSoc + total_area_ha * 100.0

def soilDegradationSources (E : StrFns) (soil_mgmt : SoilManagement)
    (total_area_ha : ℝ) : List String :=
  ["Soil erosion: " ++ E.fmtFloat ".1" 10.0 ++ " t/ha × " ++
     E.fmtFloat ".1" total_area_ha ++ " ha × " ++
     E.fmtFloat ".2" (soilConservationFactor soil_mgmt) ++
     " conservation factor = " ++
     E.fmtFloat ".0" (10.0 * total_area_ha * soilConservationFactor soil_mgmt * 1000) ++
     " kg"] ++
  (if soil_mgmt.uses_compost then ["Compost use: reduces soil degradation"]
   else ["Soil organic carbon loss: " ++ E.fmtFloat ".0" (total_area_ha * 500.0) ++ " kg"])

def calculate_soil_degradation (E : StrFns) (soil_mgmt : SoilManagement)
    (_fertilization : FertilizationPractices) (_foods : List FoodItem)
    (total_area_ha total_production_kg : ℝ) : MidpointResult :=
  { value := soilDegradationTotal soil_mgmt total_area_ha / total_production_kg
    unit := "kg soil-eq per kg"
    uncertainty_range :=
      (soilDegradationTotal soil_mgmt total_area_ha * 0.6 / total_production_kg,
       soilDegradationTotal soil_mgmt total_area_ha * 1.4 / total_production_kg)
    data_quality_score := 0.7
    contributing_sources := soilDegradationSources E soil_mgmt total_area_ha }

def marineNRunoff (inv : Inventory) : ℝ :=
  (inv.filterMap fun kv =>
    if strContains kv.2.substance "Nitrate" = true then
      some (kv.2.quantity * 0.5 * (14 / 62))
    else none).sum

def marineSources (E : StrFns) (inv : Inventory) : List String :=
  inv.filterMap fun kv =>
    if strContains kv.2.substance "Nitrate" = true then
      some ("N runoff from nitrate leaching: " ++
        E.fmtFloat ".1" (kv.2.quantity * 0.5 * (14 / 62)) ++ " kg N")
    else none

def calculate_marine_eutrophication (E : StrFns) (inv : Inventory)
    (total_production_kg : ℝ) : MidpointResult :=
  { value := marineNRunoff inv / total_production_kg
    unit := "kg N-eq per kg"
    uncertainty_range := (marineNRunoff inv * 0.5 / total_production_kg,
                          marineNRunoff inv * 1.5 / total_production_kg)
    data_quality_score := 0.65
    contributing_sources := marineSources E inv }

/-- `get_n_content` (lci_extended's own copy — note: unlike the lci.rs
table it has no Ammonium Sulfate or CAN entries). -/
def get_n_content (E : StrFns) (fertilizer_type : String)
    (npk_ratio : Option String) : ℝ :=
  if fertilizer_type = "Urea" then 0.46
  else if fertilizer_type = "DAP" ∨ fertilizer_type = "Diammonium Phosphate (DAP)" then 0.18
  else if fertilizer_type = "NPK Compound" ∨ fertilizer_type = "NPK" then
    match npk_ratio with
    | some ratio =>
      match (ratio.splitOn "-").head? with
      | some n_str =>
        match E.parseF64 n_str.trim with
        | some n_percent => n_percent / 100
        | none => 0.15
      | none => 0.15
    | none => 0.15
  else 0.10

def terrAcidNApplied (E : StrFns) (mgmt : ManagementPractices) : ℝ :=
  (mgmt.fertilization.fertilizer_applications.map fun app =>
    app.application_rate * get_n_content E app.fertilizer_type app.npk_ratio *
      (app.applications_per_season : ℝ)).sum

/-- The SO2-eq total in `calculate_terrestrial_acidification`: NH3
volatilization (20% of applied N, ×17/14, ×1.88) plus NOx from fuel
(0.02 kg/L × 0.70). -/
def terrAcidSO2eq (E : StrFns) (inv : Inventory)
    (management_practices : Option ManagementPractices) : ℝ :=
  (match management_practices with
   | some mgmt =>
     if mgmt.fertilization.uses_fertilizers then
       terrAcidNApplied E mgmt * 0.20 * (17 / 14) * 1.88
     else 0
   | none => 0) +
  (inv.filterMap fun kv =>
    if strContains kv.2.source "Diesel" = true ∨ strContains kv.2.source "Petrol" = true then
      (E.extractFuel kv.2.source).map fun fuel_l => fuel_l * 0.02 * 0.70
    else none).sum

def terrAcidSources (E : StrFns) (inv : Inventory)
    (management_practices : Option ManagementPractices) : List String :=
  (match management_practices with
   | some mgmt =>
     if mgmt.fertilization.uses_fertilizers then
       ["NH3 volatilization: " ++
          E.fmtFloat ".1" (terrAcidNApplied E mgmt * 0.20 * (17 / 14)) ++ " kg NH3 (" ++
          E.fmtFloat ".1" (terrAcidNApplied E mgmt * 0.20 * (17 / 14) * 1.88) ++
          " kg SO2-eq)"]
     else []
   | none => []) ++
  (inv.filterMap fun kv =>
    if strContains kv.2.source "Diesel" = true ∨ strContains kv.2.source "Petrol" = true then
      (E.extractFuel kv.2.source).map fun fuel_l =>
        "NOx from fuel: " ++ E.fmtFloat ".1" (fuel_l * 0.02) ++ " kg NOx (" ++
          E.fmtFloat ".1" (fuel_l * 0.02 * 0.70) ++ " kg SO2-eq)"
    else none)

def calculate_terrestrial_acidification (E : StrFns) (inv : Inventory)
    (management_practices : Option ManagementPractices)
    (total_production_kg : ℝ) : MidpointResult :=
  { value := terrAcidSO2eq E inv management_practices / total_production_kg
    unit := "kg SO2-eq per kg"
    uncertainty_range :=
      (terrAcidSO2eq E inv management_practices * 0.6 / total_production_kg,
       terrAcidSO2eq E inv management_practices * 1.4 / total_production_kg)
    data_quality_score := 0.7
    contributing_sources := terrAcidSources E inv management_practices }

/-- The PM2.5 total: 0.1 g per litre of diesel, then ×1.2 for secondary
particulate formation. -/
def pm25Total (E : StrFns) (inv : Inventory) : ℝ :=
  ((inv.filterMap fun kv =>
    if strContains kv.2.source "Diesel" = true then
      (E.extractFuel kv.2.source).map fun fuel_l => fuel_l * 0.0001
    else none).sum) * 1.2

def pm25Sources (E : StrFns) (inv : Inventory) : List String :=
  inv.filterMap fun kv =>
    if strContains kv.2.source "Diesel" = true then
      (E.extractFuel kv.2.source).map fun fuel_l =>
        "PM2.5 from diesel: " ++ E.fmtFloat ".3" (fuel_l * 0.0001) ++ " kg"
    else none

def calculate_particulate_matter (E : StrFns) (inv : Inventory)
    (total_production_kg : ℝ) : MidpointResult :=
  { value := pm25Total E inv / total_production_kg
    unit := "kg PM2.5-eq per kg"
    uncertainty_range := (pm25Total E inv * 0.5 / total_production_kg,
                          pm25Total E inv * 1.5 / total_production_kg)
    data_quality_score := 0.6
    contributing_sources := pm25Sources E inv }

def nmvocOfItem (E : StrFns) (kv : String × InventoryItem) : Option ℝ :=
  (E.extractFuel kv.2.source).map fun fuel_l =>
    if strContains kv.2.source "Diesel" = true then fuel_l * 0.0005
    else if strContains kv.2.source "Petrol" = true then fuel_l * 0.002
    else 0.0

def nmvocTotal (E : StrFns) (inv : Inventory) : ℝ :=
  (inv.filterMap (nmvocOfItem E)).sum

def nmvocSources (E : StrFns) (inv : Inventory) : List String :=
  inv.filterMap fun kv =>
    (nmvocOfItem E kv).map fun nmvoc =>
      "NMVOC from fuel: " ++ E.fmtFloat ".3" nmvoc ++ " kg"

def calculate_photochemical_oxidation (E : StrFns) (inv : Inventory)
    (total_production_kg : ℝ) : MidpointResult :=
  { value := nmvocTotal E inv / total_production_kg
    unit := "kg NMVOC-eq per kg"
    uncertainty_range := (nmvocTotal E inv * 0.5 / total_production_kg,
                          nmvocTotal E inv * 1.5 / total_production_kg)
    data_quality_score := 0.65
    contributing_sources := nmvocSources E inv }

def oilEqOfItem (E : StrFns) (kv : String × InventoryItem) : Option ℝ :=
  (E.extractFuel kv.2.source).map fun fuel_l =>
    if strContains kv.2.source "Diesel" = true then fuel_l * 0.85
    else if strContains kv.2.source "Petrol" = true then fuel_l * 0.83
    else 0.0

def oilEqTotal (E : StrFns) (inv : Inventory) : ℝ :=
  (inv.filterMap (oilEqOfItem E)).sum

def oilEqSources (E : StrFns) (inv : Inventory) : List String :=
  inv.filterMap fun kv =>
    (E.extractFuel kv.2.source).map fun fuel_l =>
      "Fossil fuel depletion: " ++ E.fmtFloat ".1" fuel_l ++ " L fuel = " ++
        E.fmtFloat ".1" ((oilEqOfItem E kv).getD 0) ++ " kg oil-eq"

def calculate_fossil_depletion (E : StrFns) (inv : Inventory)
    (total_production_kg : ℝ) : MidpointResult :=
  { value := oilEqTotal E inv / total_production_kg
    unit := "kg oil-eq per kg"
    uncertainty_range := (oilEqTotal E inv * 0.9 / total_production_kg,
                          oilEqTotal E inv * 1.1 / total_production_kg)
    data_quality_score := 0.85
    contributing_sources := oilEqSources E inv }

def mineralFeEq (inv : Inventory) : ℝ :=
  (inv.filterMap fun kv =>
    if kv.2.compartment = EnvironmentalCompartment.Resource ∧
        (strContains kv.2.substance "Phosphate" = true ∨
         strContains kv.2.substance "Potash" = true) then
      some kv.2.quantity
    else none).sum

def mineralSources (E : StrFns) (inv : Inventory) : List String :=
  inv.filterMap fun kv =>
    if kv.2.compartment = EnvironmentalCompartment.Resource ∧
        (strContains kv.2.substance "Phosphate" = true ∨
         strContains kv.2.substance "Potash" = true) then
      some (kv.2.source ++ ": " ++ E.fmtFloat ".1" kv.2.quantity ++ " " ++ kv.2.unit)
    else none

def calculate_mineral_depletion (E : StrFns) (inv : Inventory)
    (_management_practices : Option ManagementPractices)
    (total_production_kg : ℝ) : MidpointResult :=
  { value := mineralFeEq inv / total_production_kg
    unit := "kg Fe-eq per kg"
    uncertainty_range := (mineralFeEq inv * 0.7 / total_production_kg,
                          mineralFeEq inv * 1.3 / total_production_kg)
    data_quality_score := if 0 < mineralFeEq inv then 0.75 else 0.7
    contributing_sources := mineralSources E inv }

/-- The final per-kg scaling loop of
`calculate_extended_midpoint_impacts`: every entry whose unit does not
already say "per kg" — except Land use — has its value and bounds divided
by the total production mass and its unit suffixed. -/
def scaleEntry (total_production_kg : ℝ) (category : String)
    (result : MidpointResult) : MidpointResult :=
  if strContains result.unit "per kg" = false ∧ ¬ category = "Land use" then
    { result with value := result.value / total_production_kg
                  unit := result.unit ++ " per kg"
                  uncertainty_range := (result.uncertainty_range.1 / total_production_kg,
                                        result.uncertainty_range.2 / total_production_kg) }
  else result

def scaleToPerKg (total_production_kg : ℝ) (impacts : ImpactsMap) : ImpactsMap :=
  impacts.map fun kv => (kv.1, scaleEntry total_production_kg kv.1 kv.2)

/-- `calculate_extended_midpoint_impacts` (lci_extended.rs). -/
def calculate_extended_midpoint_impacts (E : StrFns) (inv : Inventory)
    (a : Assessment) : ImpactsMap :=
  let impacts := calculate_midpoint_impacts E inv
  let total_production_kg := totalProductionKg a.foods
  let total_area_ha := totalAreaHa a.foods
  if total_production_kg = 0 then impacts
  else
    let impacts :=
      match mapGet? impacts "Water consumption" with
      | some water_consumption =>
        let aware_factor := get_aware_factor a.country a.region
        let water_scarcity := water_consumption.value * aware_factor
        mapInsert impacts "Water scarcity"
          { value := water_scarcity / total_production_kg
            unit := "m3 H2O-eq per kg"
            uncertainty_range := (water_scarcity * 0.7 / total_production_kg,
                                  water_scarcity * 1.3 / total_production_kg)
            data_quality_score := 0.75
            contributing_sources :=
              ["Water consumption: " ++ E.fmtFloat ".1" water_consumption.value ++
                 " m³ × AWARE factor " ++ E.fmtFloat ".1" aware_factor ++ " = " ++
                 E.fmtFloat ".1" water_scarcity ++ " m³ H2O-eq"] }
      | none => impacts
    let impacts :=
      if 0 < total_area_ha then
        mapInsert impacts "Biodiversity loss"
          (calculate_biodiversity_impact E a.foods a.management_practices
            total_area_ha total_production_kg)
      else impacts
    let impacts :=
      match a.management_practices with
      | some mgmt =>
        mapInsert impacts "Soil degradation"
          (calculate_soil_degradation E mgmt.soil_management mgmt.fertilization
            a.foods total_area_ha total_production_kg)
      | none => impacts
    let impacts := mapInsert impacts "Marine eutrophication"
      (calculate_marine_eutrophication E inv total_production_kg)
    let impacts := mapInsert impacts "Terrestrial acidification"
      (calculate_terrestrial_acidification E inv a.management_practices total_production_kg)
    let impacts := mapInsert impacts "Particulate matter formation"
      (calculate_particulate_matter E inv total_production_kg)
    let impacts := mapInsert impacts "Photochemical oxidation"
      (calculate_photochemical_oxidation E inv total_production_kg)
    let impacts := mapInsert impacts "Fossil depletion"
      (calculate_fossil_depletion E inv total_production_kg)
    let impacts := mapInsert impacts "Mineral depletion"
      (calculate_mineral_depletion E inv a.management_practices total_production_kg)
    scaleToPerKg total_production_kg impacts

lemma mapGet?_modify_self (m : ImpactsMap) (k : String)
    (f : MidpointResult → MidpointResult) :
    mapGet? (mapModify m k f) k = (mapGet? m k).map f := by
  induction m with
  | nil => rfl
  | cons kv rest ih =>
    obtain ⟨k', v⟩ := kv
    by_cases h : k' = k
    · simp [mapModify, mapGet?, h]
    · simp [mapModify, mapGet?, h, ih]

lemma mapGet?_modify_ne (m : ImpactsMap) (k : String)
    (f : MidpointResult → MidpointResult) (k' : String) (h : k' ≠ k) :
    mapGet? (mapModify m k f) k' = mapGet? m k' := by
  have h' : k ≠ k' := Ne.symm h
  induction m with
  | nil => rfl
  | cons kv rest ih =>
    obtain ⟨k'', v⟩ := kv
    by_cases hk : k'' = k
    · subst hk
      simp [mapModify, mapGet?, h']
    · simp only [mapModify, if_neg hk, mapGet?]
      by_cases hk' : k'' = k'
      · simp [hk']
      · simp [hk', ih]

lemma mapGet?_scale (M : ℝ) (m : ImpactsMap) (k : String) :
    mapGet? (scaleToPerKg M m) k = (mapGet? m k).map (scaleEntry M k) := by
  induction m with
  | nil => rfl
  | cons kv rest ih =>
    obtain ⟨k', v⟩ := kv
    by_cases h : k' = k
    · subst h
      simp [scaleToPerKg, mapGet?]
    · simp [scaleToPerKg, mapGet?, h, ih.symm]

lemma mapGet?_keyed_map_none (l : List String) (f : String → MidpointResult)
    (cat : String) (h : cat ∉ l) :
    mapGet? (l.map fun c => (c, f c)) cat = none := by
  induction l with
  | nil => rfl
  | cons c rest ih =>
    have h1 : cat ≠ c := fun hc => h (hc ▸ List.mem_cons_self c rest)
    have h2 : cat ∉ rest := fun hc => h (List.mem_cons_of_mem c hc)
    rw [List.map_cons, mapGet?, if_neg (fun hc => h1 hc.symm)]
    exact ih h2

/-- The absolute (pre-normalization) central value and uncertainty bounds
of each impact category: the named running totals of the source
(`gwp_total`, `water_scarcity`, `biodiversity_loss`, `soil_degradation`,
`n_runoff`, `so2_eq`, `pm25_eq`, `nmvoc_eq`, `oil_eq`, `fe_eq`, …) before
any division by the total production mass.  This is the
specification-side reference that C5's refinement theorem compares the
pipeline output against. -/
def absoluteImpactTriple (E : StrFns) (inv : Inventory) (a : Assessment) :
    String → ℝ × ℝ × ℝ := fun cat =>
  if cat = "Global warming" then
    (gwpTotal inv, gwpTotal inv * 0.8, gwpTotal inv * 1.2)
  else if cat = "Water consumption" then (waterTotal inv, 0, 0)
  else if cat = "Water scarcity" then
    (waterTotal inv * get_aware_factor a.country a.region,
     waterTotal inv * get_aware_factor a.country a.region * 0.7,
     waterTotal inv * get_aware_factor a.country a.region * 1.3)
  else if cat = "Land use" then (landUseTotal inv, 0, 0)
  else if cat = "Freshwater eutrophication" then (freshwaterEutroTotal inv, 0, 0)
  else if cat = "Biodiversity loss" then
    (biodiversityLossTotal a.foods a.management_practices,
     biodiversityLossTotal a.foods a.management_practices * 0.5,
     biodiversityLossTotal a.foods a.management_practices * 1.5)
  else if cat = "Soil degradation" then
    (match a.management_practices with
     | some mgmt =>
       (soilDegradationTotal mgmt.soil_management (totalAreaHa a.foods),
        soilDegradationTotal mgmt.soil_management (totalAreaHa a.foods) * 0.6,
        soilDegradationTotal mgmt.soil_management (totalAreaHa a.foods) * 1.4)
     | none => (0, 0, 0))
  else if cat = "Marine eutrophication" then
    (marineNRunoff inv, marineNRunoff inv * 0.5, marineNRunoff inv * 1.5)
  else if cat = "Terrestrial acidification" then
    (terrAcidSO2eq E inv a.management_practices,
     terrAcidSO2eq E inv a.management_practices * 0.6,
     terrAcidSO2eq E inv a.management_practices * 1.4)
  else if cat = "Particulate matter formation" then
    (pm25Total E inv, pm25Total E inv * 0.5, pm25Total E inv * 1.5)
  else if cat = "Photochemical oxidation" then
    (nmvocTotal E inv, nmvocTotal E inv * 0.5, nmvocTotal E inv * 1.5)
  else if cat = "Fossil depletion" then
    (oilEqTotal E inv, oilEqTotal E inv * 0.9, oilEqTotal E inv * 1.1)
  else if cat = "Mineral depletion" then
    (mineralFeEq inv, mineralFeEq inv * 0.7, mineralFeEq inv * 1.3)
  else (0, 0, 0)

lemma scaleEntry_keep (M : ℝ) (k : String) (r : MidpointResult)
    (h : strContains r.unit "per kg" = true) :
    scaleEntry M k r = r := by
  rw [scaleEntry, if_neg]
  simp [h]

lemma scaleEntry_scales (M : ℝ) (k : String) (r : MidpointResult)
    (h1 : strContains r.unit "per kg" = false) (h2 : ¬ k = "Land use") :
    scaleEntry M k r =
      { r with value := r.value / M, unit := r.unit ++ " per kg",
               uncertainty_range := (r.uncertainty_range.1 / M,
                                     r.uncertainty_range.2 / M) } :=
  if_pos ⟨h1, h2⟩

lemma scaleEntry_landUse (M : ℝ) (r : MidpointResult) :
    scaleEntry M "Land use" r = r := by
  rw [scaleEntry, if_neg]
  simp

lemma unit_perKg_ws : strContains "m3 H2O-eq per kg" "per kg" = true := by decide
lemma unit_perKg_bio : strContains "PDF·m²·yr per kg" "per kg" = true := by decide
lemma unit_perKg_soil : strContains "kg soil-eq per kg" "per kg" = true := by decide
lemma unit_perKg_me : strContains "kg N-eq per kg" "per kg" = true := by decide
lemma unit_perKg_ta : strContains "kg SO2-eq per kg" "per kg" = true := by decide
lemma unit_perKg_pm : strContains "kg PM2.5-eq per kg" "per kg" = true := by decide
lemma unit_perKg_po : strContains "kg NMVOC-eq per kg" "per kg" = true := by decide
lemma unit_perKg_fd : strContains "kg oil-eq per kg" "per kg" = true := by decide
lemma unit_perKg_md : strContains "kg Fe-eq per kg" "per kg" = true := by decide
lemma unit_abs_gw : strContains "kg CO2-eq" "per kg" = false := by decide
lemma unit_abs_wc : strContains "m3" "per kg" = false := by decide
lemma unit_abs_lu : strContains "m2a crop-eq" "per kg" = false := by decide
lemma unit_abs_fe : strContains "kg P-eq" "per kg" = false := by decide

lemma midpoint_basic_gw (E : StrFns) (inv : Inventory) :
    mapGet? (calculate_midpoint_impacts E inv) "Global warming" =
      some { value := gwpTotal inv, unit := "kg CO2-eq",
             uncertainty_range := (gwpTotal inv * 0.8, gwpTotal inv * 1.2),
             data_quality_score := 0.8, contributing_sources := gwpSources E inv } := by
  unfold calculate_midpoint_impacts
  rw [mapGet?_modify_ne _ _ _ _ (by decide), mapGet?_modify_ne _ _ _ _ (by decide),
    mapGet?_modify_ne _ _ _ _ (by decide), mapGet?_modify_self]
  rfl

lemma midpoint_basic_wc (E : StrFns) (inv : Inventory) :
    mapGet? (calculate_midpoint_impacts E inv) "Water consumption" =
      some { value := 0 + waterTotal inv, unit := "m3", uncertainty_range := (0, 0),
             data_quality_score := 0.8,
             contributing_sources := [] ++ waterSources inv } := by
  unfold calculate_midpoint_impacts
  rw [mapGet?_modify_ne _ _ _ _ (by decide), mapGet?_modify_ne _ _ _ _ (by decide),
    mapGet?_modify_self, mapGet?_modify_ne _ _ _ _ (by decide)]
  rfl

lemma midpoint_basic_lu (E : StrFns) (inv : Inventory) :
    mapGet? (calculate_midpoint_impacts E inv) "Land use" =
      some { value := 0 + landUseTotal inv, unit := "m2a crop-eq",
             uncertainty_range := (0, 0), data_quality_score := 0.8,
             contributing_sources := [] ++ landUseSources inv } := by
  unfold calculate_midpoint_impacts
  rw [mapGet?_modify_ne _ _ _ _ (by decide), mapGet?_modify_self,
    mapGet?_modify_ne _ _ _ _ (by decide), mapGet?_modify_ne _ _ _ _ (by decide)]
  rfl

lemma midpoint_basic_fe (E : StrFns) (inv : Inventory) :
    mapGet? (calculate_midpoint_impacts E inv) "Freshwater eutrophication" =
      some { value := 0 + freshwaterEutroTotal inv, unit := "kg P-eq",
             uncertainty_range := (0, 0), data_quality_score := 0.8,
             contributing_sources := [] ++ freshwaterEutroSources inv } := by
  unfold calculate_midpoint_impacts
  rw [mapGet?_modify_self, mapGet?_modify_ne _ _ _ _ (by decide),
    mapGet?_modify_ne _ _ _ _ (by decide), mapGet?_modify_ne _ _ _ _ (by decide)]
  rfl

/-- C5: on the comprehensive path (positive total production mass,
positive allocated area, management practices present), every impact
category's value and uncertainty bounds in the extended midpoint map equal
the category's absolute total divided by the total production mass, except
`"Land use"`, whose value remains the absolute undivided total. -/
theorem calculate_extended_midpoint_impacts_per_kg (E : StrFns) (inv : Inventory)
    (a : Assessment) (m : ManagementPractices)
    (hM : 0 < totalProductionKg a.foods)
    (hA : 0 < totalAreaHa a.foods)
    (hmp : a.management_practices = some m) :
    (∀ cat ∈ impactCategoriesList, ¬ cat = "Land use" →
      (mapGet? (calculate_extended_midpoint_impacts E inv a) cat).map
          (fun r => (r.value, r.uncertainty_range)) =
        some ((absoluteImpactTriple E inv a cat).1 / totalProductionKg a.foods,
              ((absoluteImpactTriple E inv a cat).2.1 / totalProductionKg a.foods,
               (absoluteImpactTriple E inv a cat).2.2 / totalProductionKg a.foods))) ∧
    (mapGet? (calculate_extended_midpoint_impacts E inv a) "Land use").map
        (fun r => r.value) = some (landUseTotal inv) := by
  constructor
  · intro cat hcat hlu
    fin_cases hcat <;>
      simp_all only [calculate_extended_midpoint_impacts, if_neg hM.ne', hmp,
        if_pos hA, midpoint_basic_gw, midpoint_basic_wc, midpoint_basic_lu,
        midpoint_basic_fe, mapGet?_scale, mapGet?_insert_ne, mapGet?_insert_self,
        Option.map_some', scaleEntry_keep, scaleEntry_scales, scaleEntry_landUse,
        unit_perKg_ws, unit_perKg_bio, unit_perKg_soil, unit_perKg_me, unit_perKg_ta,
        unit_perKg_pm, unit_perKg_po, unit_perKg_fd, unit_perKg_md,
        unit_abs_gw, unit_abs_wc, unit_abs_lu, unit_abs_fe,
        calculate_biodiversity_impact, calculate_soil_degradation,
        calculate_marine_eutrophication, calculate_terrestrial_acidification,
        calculate_particulate_matter, calculate_photochemical_oxidation,
        calculate_fossil_depletion, calculate_mineral_depletion,
        absoluteImpactTriple, String.reduceEq, reduceIte, zero_add, ne_eq,
        not_false_eq_true, not_true_eq_false, Prod.mk.injEq, Option.some.injEq,
        and_self, and_true, true_and]
  · simp_all only [calculate_extended_midpoint_impacts, if_neg hM.ne', hmp,
      if_pos hA, midpoint_basic_lu, midpoint_basic_wc, mapGet?_scale,
      mapGet?_insert_ne, mapGet?_insert_self, Option.map_some', scaleEntry_landUse,
      String.reduceEq, reduceIte, zero_add, ne_eq, not_false_eq_true,
      Option.some.injEq]

/-! ### Concrete comprehensive-path scenario for C5 -/

def sampleSoilManagement : SoilManagement :=
  { soil_type := none, uses_compost := false, compost_source := none,
    conservation_practices := [], soil_testing_frequency := none }

def sampleMgmt : ManagementPractices :=
  { soil_management := sampleSoilManagement
    fertilization := { uses_fertilizers := false, fertilizer_applications := [],
                       soil_test_based := false, follows_nutrient_plan := false }
    water_management := { water_source := [], irrigation_system := none,
                          water_conservation_practices := [] }
    pest_management := { management_approach := "Integrated Pest Management",
                         uses_ipm := true, pesticides_used := [],
                         monitoring_frequency := none } }

def sampleFoodC5 : FoodItem :=
  { id := "3", name := "Cassava", quantity_kg := 1, category := .Roots,
    crop_type := some "Cassava", origin_country := some "Ghana",
    production_system := some .Smallholder, seasonal_factor := none,
    variety := none, area_allocated := some 1, cropping_pattern := none,
    intercropping_partners := none, post_harvest_losses := none }

def sampleAssessment : Assessment :=
  { id := "a1", company_name := "sample farm", country := .Ghana, region := none,
    foods := [sampleFoodC5], management_practices := some sampleMgmt }

/-- Witness for C5 at a one-item Ghana assessment with mass 1 kg and
area 1 ha. -/
theorem calculate_extended_midpoint_impacts_per_kg_witness :
    (mapGet? (calculate_extended_midpoint_impacts trivialStrFns [] sampleAssessment)
        "Marine eutrophication").map (fun r => (r.value, r.uncertainty_range)) =
      some ((absoluteImpactTriple trivialStrFns [] sampleAssessment
               "Marine eutrophication").1 / totalProductionKg sampleAssessment.foods,
            ((absoluteImpactTriple trivialStrFns [] sampleAssessment
                "Marine eutrophication").2.1 / totalProductionKg sampleAssessment.foods,
             (absoluteImpactTriple trivialStrFns [] sampleAssessment
                "Marine eutrophication").2.2 / totalProductionKg sampleAssessment.foods)) :=
  (calculate_extended_midpoint_impacts_per_kg trivialStrFns [] sampleAssessment
    sampleMgmt (by norm_num [totalProductionKg, sampleAssessment, sampleFoodC5])
    (by norm_num [totalAreaHa, sampleAssessment, sampleFoodC5,
      List.filterMap_cons, List.filterMap_nil]) rfl).1
    "Marine eutrophication" (by decide) (by decide)

/-! ## Data-quality assessment (from `production/lca.rs`) -/

structure DataSourceContribution where
  source_type : DataSource
  percentage : ℝ
  quality_score : ℝ

structure DataQuality where
  overall_confidence : ConfidenceLevel
  data_source_mix : List DataSourceContribution
  regional_adaptation : Bool
  completeness_score : ℝ
  temporal_representativeness : ℝ
  geographical_representativeness : ℝ
  technological_representativeness : ℝ
  warnings : List String
  recommendations : List String

/-- The source-type label chosen in `assess_data_quality`'s loop. -/
def sourceTypeOf (source : String) : String :=
  if strContains source "Ghana" = true ∨ strContains source "Nigeria" = true then
    "Country-specific"
  else if strContains source "Africa" = true then "Regional"
  else if strContains source "Default" = true then "Estimated"
  else "Global"

/-- `*source_contributions.entry(t).or_insert(0) += 1`. -/
def bumpCount (l : List (String × ℕ)) (key : String) : List (String × ℕ) :=
  match l with
  | [] => [(key, 1)]
  | (k, c) :: rest => if k = key then (k, c + 1) :: rest else (k, c) :: bumpCount rest key

/-- One iteration of the quality loop for a `(food, category)` pair over
the accumulated `(quality_scores, source_contributions, warnings)`. -/
def dataQualityStep (m : FactorMap) (country : Country)
    (acc : List ℝ × List (String × ℕ) × List String)
    (food : FoodItem) (category : String) :
    List ℝ × List (String × ℕ) × List String :=
  let hierarchy := build_lookup_hierarchy food country
  let res := find_best_factor m food category hierarchy
  let source := res.2.1
  let pedigree := res.2.2.2
  let quality_score := pedigree.calculate_overall_quality_score
  if strContains source "Default estimate" = true then acc
  else
    (acc.1 ++ [quality_score],
     bumpCount acc.2.1 (sourceTypeOf source),
     if pedigree.calculate_overall_quality_score < 0.5 then
       acc.2.2 ++ ["Low data quality for " ++ food.name ++ " " ++ category ++ ": " ++ source]
     else acc.2.2)

def dataQualityScan (m : FactorMap) (country : Country) (foods : List FoodItem) :
    List ℝ × List (String × ℕ) × List String :=
  foods.foldl
    (fun acc food =>
      impactCategoriesList.foldl (fun acc cat => dataQualityStep m country acc food cat) acc)
    ([], [], [])

def totalMeatKg (foods : List FoodItem) : ℝ :=
  ((foods.filter fun f => f.category = FoodCategory.Meat).map (·.quantity_kg)).sum

/-- `AfricanLCAEngine::assess_data_quality` (always `Ok` in Rust). -/
def assess_data_quality (E : StrFns) (m : FactorMap) (foods : List FoodItem)
    (country : Country) : DataQuality :=
  let scan := dataQualityScan m country foods
  let quality_scores := scan.1
  let source_contributions := scan.2.1
  let warnings := scan.2.2
  let overall_quality :=
    if quality_scores = [] then 0.0
    else quality_scores.sum / (quality_scores.length : ℝ)
  let total_factors : ℕ := (source_contributions.map fun sc => sc.2).sum
  let data_source_mix := source_contributions.map fun sc =>
    { source_type :=
        if sc.1 = "Country-specific" then DataSource.CountrySpecific country
        else if sc.1 = "Regional" then DataSource.Regional "West Africa"
        else if sc.1 = "Global" then DataSource.Global
        else DataSource.Estimated
      percentage := ((sc.2 : ℝ) / (total_factors : ℝ)) * 100
      quality_score := overall_quality : DataSourceContribution }
  let recommendations :=
    (if overall_quality < 0.6 then
      ["Consider collecting primary data for major food items"] else []) ++
    (if foods.length / 2 < warnings.length then
      ["Prioritize data improvement for most uncertain factors"] else [])
  let warnings :=
    if 20.0 < totalMeatKg foods then
      warnings ++ ["High meat consumption detected: " ++
        E.fmtFloat ".1" (totalMeatKg foods) ++
        "kg. Consider reducing meat intake for environmental and health benefits."]
    else warnings
  let confidence_level :=
    if 0.7 < overall_quality then ConfidenceLevel.High
    else if 0.5 < overall_quality then ConfidenceLevel.Medium
    else if 0.3 < overall_quality then ConfidenceLevel.Low
    else ConfidenceLevel.VeryLow
  { overall_confidence := confidence_level
    data_source_mix := data_source_mix
    regional_adaptation := true
    completeness_score := overall_quality
    temporal_representativeness := 0.8
    geographical_representativeness :=
      if country = Country.Ghana ∨ country = Country.Nigeria then 0.7 else 0.4
    technological_representativeness := 0.6
    warnings := warnings
    recommendations := recommendations }

/-- All `(food, category)` pairs visited by the quality loop, in loop
order. -/
def dataQualityPairs (foods : List FoodItem) : List (FoodItem × String) :=
  foods.flatMap fun f => impactCategoriesList.map fun c => (f, c)

def pairSource (m : FactorMap) (country : Country) (p : FoodItem × String) : String :=
  (find_best_factor m p.1 p.2 (build_lookup_hierarchy p.1 country)).2.1

def pairQuality (m : FactorMap) (country : Country) (p : FoodItem × String) : ℝ :=
  (find_best_factor m p.1 p.2 (build_lookup_hierarchy p.1 country)).2.2.2.calculate_overall_quality_score

lemma dataQualityStep_eq (m : FactorMap) (country : Country)
    (acc : List ℝ × List (String × ℕ) × List String) (p : FoodItem × String) :
    dataQualityStep m country acc p.1 p.2 =
      if strContains (pairSource m country p) "Default estimate" = true then acc
      else
        (acc.1 ++ [pairQuality m country p],
         bumpCount acc.2.1 (sourceTypeOf (pairSource m country p)),
         if pairQuality m country p < 0.5 then
           acc.2.2 ++ ["Low data quality for " ++ p.1.name ++ " " ++ p.2 ++ ": " ++
             pairSource m country p]
         else acc.2.2) := rfl

lemma nestedFold_eq_pairsFold (m : FactorMap) (country : Country)
    (foods : List FoodItem) (acc : List ℝ × List (String × ℕ) × List String) :
    foods.foldl
      (fun acc food =>
        impactCategoriesList.foldl (fun acc cat => dataQualityStep m country acc food cat) acc)
      acc =
    (dataQualityPairs foods).foldl (fun acc p => dataQualityStep m country acc p.1 p.2) acc := by
  induction foods generalizing acc with
  | nil => rfl
  | cons f rest ih =>
    rw [List.foldl_cons, dataQualityPairs, List.flatMap_cons, List.foldl_append,
      List.foldl_map]
    exact ih _

lemma pairsFold_fst (m : FactorMap) (country : Country)
    (ps : List (FoodItem × String)) (acc : List ℝ × List (String × ℕ) × List String) :
    (ps.foldl (fun acc p => dataQualityStep m country acc p.1 p.2) acc).1 =
      acc.1 ++ ((ps.filter fun p =>
          ¬ strContains (pairSource m country p) "Default estimate" = true).map
        (pairQuality m country)) := by
  induction ps generalizing acc with
  | nil => simp
  | cons p rest ih =>
    rw [List.foldl_cons, ih, dataQualityStep_eq]
    by_cases hd : strContains (pairSource m country p) "Default estimate" = true
    · simp [hd, List.filter_cons]
    · simp [hd, List.filter_cons]

lemma pairsFold_warnings (m : FactorMap) (country : Country)
    (ps : List (FoodItem × String)) (acc : List ℝ × List (String × ℕ) × List String) :
    (ps.foldl (fun acc p => dataQualityStep m country acc p.1 p.2) acc).2.2 =
      acc.2.2 ++ ((ps.filter fun p =>
          ¬ strContains (pairSource m country p) "Default estimate" = true ∧
            pairQuality m country p < 0.5).map fun p =>
        "Low data quality for " ++ p.1.name ++ " " ++ p.2 ++ ": " ++
          pairSource m country p) := by
  induction ps generalizing acc with
  | nil => simp
  | cons p rest ih =>
    rw [List.foldl_cons, ih, dataQualityStep_eq]
    by_cases hd : strContains (pairSource m country p) "Default estimate" = true
    · simp [hd, List.filter_cons]
    · by_cases hq : pairQuality m country p < 0.5 <;>
        simp [hd, hq, List.filter_cons]

/-- C8 (amended): in `assess_data_quality`, for every (food item, impact
category) pair the pedigree-derived quality score enters the overall
quality average exactly when the resolved factor is not a
default-estimate fallback; default-estimate fallbacks are excluded from
the averaging but are **not** flagged in the returned warnings list —
warnings consist solely of the low-quality (`< 0.5`) non-default entries
plus the high-meat-quantity check. -/
theorem assess_data_quality_spec (E : StrFns) (m : FactorMap)
    (foods : List FoodItem) (country : Country) :
    (assess_data_quality E m foods country).completeness_score =
      (if ((dataQualityPairs foods).filter fun p =>
            ¬ strContains (pairSource m country p) "Default estimate" = true).map
            (pairQuality m country) = [] then 0.0
       else (((dataQualityPairs foods).filter fun p =>
              ¬ strContains (pairSource m country p) "Default estimate" = true).map
              (pairQuality m country)).sum /
            ((((dataQualityPairs foods).filter fun p =>
              ¬ strContains (pairSource m country p) "Default estimate" = true).map
              (pairQuality m country)).length : ℝ)) ∧
    (assess_data_quality E m foods country).warnings =
      (((dataQualityPairs foods).filter fun p =>
          ¬ strContains (pairSource m country p) "Default estimate" = true ∧
            pairQuality m country p < 0.5).map fun p =>
        "Low data quality for " ++ p.1.name ++ " " ++ p.2 ++ ": " ++
          pairSource m country p) ++
      (if 20.0 < totalMeatKg foods then
        ["High meat consumption detected: " ++ E.fmtFloat ".1" (totalMeatKg foods) ++
         "kg. Consider reducing meat intake for environmental and health benefits."]
       else []) := by
  have hscan : dataQualityScan m country foods =
      (dataQualityPairs foods).foldl
        (fun acc p => dataQualityStep m country acc p.1 p.2) ([], [], []) :=
    nestedFold_eq_pairsFold m country foods ([], [], [])
  have hfst := pairsFold_fst m country (dataQualityPairs foods) ([], [], [])
  have hw := pairsFold_warnings m country (dataQualityPairs foods) ([], [], [])
  constructor
  · simp only [assess_data_quality, hscan, hfst]
    simp
  · simp only [assess_data_quality, hscan, hw]
    by_cases hmeat : (20.0 : ℝ) < totalMeatKg foods <;> simp [hmeat]


lemma defaultSrc_contains :
    strContains "Default estimate - high uncertainty" "Default estimate" = true := by
  decide

/-- Counterexample to C8 as stated: with an empty factor repository every
(food, category) pair resolves to a default-estimate fallback, yet the
returned warnings list is empty — no warning flags the fallbacks. -/
theorem assess_data_quality_counterexample :
    (assess_data_quality trivialStrFns (fun _ => none) [sampleFoodC5] .Ghana).warnings = [] ∧
    strContains (find_best_factor (fun _ => none) sampleFoodC5 "Global warming"
        (build_lookup_hierarchy sampleFoodC5 .Ghana)).2.1 "Default estimate" = true := by
  constructor
  · have hscan := nestedFold_eq_pairsFold (fun _ => none) .Ghana [sampleFoodC5] ([], [], [])
    have hw := pairsFold_warnings (fun _ => none) .Ghana
      (dataQualityPairs [sampleFoodC5]) ([], [], [])
    have hfilter : ((dataQualityPairs [sampleFoodC5]).filter fun p =>
        ¬ strContains (pairSource (fun _ => none) .Ghana p) "Default estimate" = true ∧
          pairQuality (fun _ => none) .Ghana p < 0.5) = [] := by
      simp [dataQualityPairs, impactCategoriesList, List.filter_cons, pairSource,
        find_best_factor, build_lookup_hierarchy, sampleFoodC5, defaultFactorTuple,
        defaultSrc_contains]
    have hmeat : ¬ (20.0 : ℝ) < totalMeatKg [sampleFoodC5] := by
      have h0 : totalMeatKg [sampleFoodC5] = 0 := by
        simp [totalMeatKg, sampleFoodC5, List.filter_cons]
      rw [h0]
      norm_num
    simp only [assess_data_quality, dataQualityScan, hscan, hw, hfilter]
    simp [hmeat]
  · rfl

end

end GreenLCA
